import Mathlib

set_option maxRecDepth 100000

/-!
Verification of the analytics computation engine of the hospital-dashboard
repository (KPI aggregator `app/services/kpis.py`, trend engine
`app/services/trends.py`, predictive/threshold engine
`app/services/predictive.py`, bottleneck detector
`app/services/predictions.py`).

The services are thin Python wrappers around PostgreSQL queries over the
fact tables (admissions, discharges, procedures, readmissions,
resource_allocation, doctor_schedules, billing, hospital_branches,
departments, doctors).  We shallowly embed each relevant query as a pure
Lean function over explicit lists of rows:

  * a table is a `List` of row structures; an SQL inner join is a
    `List.flatMap` over matching rows; `GROUP BY` is grouping by a
    decidable key; `ORDER BY` is `List.insertionSort`;
  * SQL `timestamp` values are modelled as a calendar date plus the
    second-of-day; SQL `date` values as the calendar date; interval
    arithmetic goes through a days-from-civil conversion
    (the standard era-based civil-calendar algorithm);
  * SQL `numeric` / Python `float` arithmetic is modelled exactly over
    `ℚ` (the idealisation of IEEE floats used throughout);
    `ROUND(x::numeric, 2)` is round-half-away-from-zero at 2 decimals,
    Python `round(x, 2)` is round-half-to-even at 2 decimals;
  * `to_char` rendering is modelled by explicit digit strings, following
    the PostgreSQL template semantics (in a `to_char` format string,
    `YYYY`, `MM`, `DD` and `Q` are template patterns: `Q` renders the
    quarter number, it is not literal text);
  * the `try/except Exception: ... default` blocks of
    `get_kpi_summary` are modelled by a record of failure flags, one per
    optional sub-query: a set flag means the underlying query raised and
    the handler's default is used.  The embedded functions are total, so
    a failure never escapes, mirroring the absorbed exceptions.
-/

/-- A calendar date, as in SQL `date` values: year, month, day. -/
structure Date where
  y : Nat
  m : Nat
  d : Nat
deriving DecidableEq, Repr

/-- Chronological (lexicographic calendar) strict order on dates. -/
def Date.lt (a b : Date) : Prop :=
  a.y < b.y ∨ (a.y = b.y ∧ (a.m < b.m ∨ (a.m = b.m ∧ a.d < b.d)))

/-- Chronological order on dates, non-strict. -/
def Date.le (a b : Date) : Prop :=
  Date.lt a b ∨ a = b

instance (a b : Date) : Decidable (Date.lt a b) := by
  unfold Date.lt; infer_instance

instance (a b : Date) : Decidable (Date.le a b) := by
  unfold Date.le; infer_instance

instance : IsTotal Date Date.le :=
  ⟨fun a b => by
    rcases a with ⟨ay, am, ad⟩; rcases b with ⟨by_, bm, bd⟩
    simp only [Date.le, Date.lt, Date.mk.injEq]
    omega⟩

instance : IsTrans Date Date.le :=
  ⟨fun a b c h1 h2 => by
    rcases a with ⟨ay, am, ad⟩; rcases b with ⟨by_, bm, bd⟩
    rcases c with ⟨cy, cm, cd⟩
    simp only [Date.le, Date.lt, Date.mk.injEq] at *
    omega⟩

/-- A timestamp, as in SQL `timestamp` values: a calendar date plus the
second of day (0 ≤ sod < 86400 for well-formed data). -/
structure Ts where
  day : Date
  sod : Nat
deriving DecidableEq, Repr

/-- Gregorian leap-year test. -/
def isLeap (y : Nat) : Bool :=
  y % 4 == 0 && (y % 100 != 0 || y % 400 == 0)

/-- Number of days in a month of a given year. -/
def daysInMonth (y m : Nat) : Nat :=
  if m == 2 then (if isLeap y then 29 else 28)
  else if m == 4 || m == 6 || m == 9 || m == 11 then 30
  else 31

/-- The calendar day before a date (clamped at year 0 underflow, which is
far outside the PostgreSQL date range used by the repository). -/
def Date.prevDay (dt : Date) : Date :=
  if 1 < dt.d then ⟨dt.y, dt.m, dt.d - 1⟩
  else if 1 < dt.m then ⟨dt.y, dt.m - 1, daysInMonth dt.y (dt.m - 1)⟩
  else ⟨dt.y - 1, 12, 31⟩

/-- The calendar day after a date. -/
def Date.nextDay (dt : Date) : Date :=
  if dt.d < daysInMonth dt.y dt.m then ⟨dt.y, dt.m, dt.d + 1⟩
  else if dt.m < 12 then ⟨dt.y, dt.m + 1, 1⟩
  else ⟨dt.y + 1, 1, 1⟩

/-- Subtract a number of days from a date (SQL `date - n`). -/
def Date.subDays (dt : Date) : Nat → Date
  | 0 => dt
  | n + 1 => (Date.subDays dt n).prevDay

/-- Add a number of days to a date (SQL `date + n` and `date + interval`). -/
def Date.addDays (dt : Date) : Nat → Date
  | 0 => dt
  | n + 1 => (Date.addDays dt n).nextDay

/-- Days since the civil epoch 1970-01-01, by the standard era-based
civil-from-days algorithm; used to take exact differences between
timestamps (SQL interval subtraction). -/
def Date.toDays (dt : Date) : Int :=
  let yAdj : Int := if dt.m ≤ 2 then (dt.y : Int) - 1 else (dt.y : Int)
  let era : Int := (if 0 ≤ yAdj then yAdj else yAdj - 399) / 400
  let yoe : Int := yAdj - era * 400
  let mp : Int := ((dt.m : Int) + 9) % 12
  let doy : Int := (153 * mp + 2) / 5 + (dt.d : Int) - 1
  let doe : Int := yoe * 365 + yoe / 4 - yoe / 100 + doy
  era * 146097 + doe - 719468

/-- Seconds since the civil epoch; timestamp differences in SQL
(`EXTRACT(EPOCH FROM (t2 - t1))`) are differences of this value. -/
def Ts.secs (t : Ts) : Int :=
  t.day.toDays * 86400 + (t.sod : Int)

/-- Timestamp at-or-after a date bound, as in SQL
`ts >= some_date` (the date coerces to its midnight): it holds iff the
timestamp's calendar day is at or after the bound. -/
def tsGeDate (t : Ts) (dt : Date) : Bool :=
  decide (Date.le dt t.day)

/-- Timestamp strictly before the midnight following a date bound, as in
SQL `ts < some_date + interval '1 day'`. -/
def tsLtDatePlus1 (t : Ts) (dt : Date) : Bool :=
  decide (Date.lt t.day (dt.addDays 1))

/-- Hour of day of a timestamp, as in SQL `EXTRACT(HOUR FROM ts)::int`. -/
def Ts.hourOf (t : Ts) : Nat :=
  t.sod / 3600

/-- PostgreSQL `ROUND(x::numeric, 2)`: round half away from zero at two
decimal places. -/
def pgRound2 (x : ℚ) : ℚ :=
  if 0 ≤ x then ((⌊x * 100 + 1/2⌋ : Int) : ℚ) / 100
  else -(((⌊(-x) * 100 + 1/2⌋ : Int) : ℚ) / 100)

/-- Round half to even of a rational, the idealisation of Python
`round(x)` used at two decimals below. -/
def rndHalfEven (x : ℚ) : Int :=
  if x - ((⌊x⌋ : Int) : ℚ) < 1/2 then ⌊x⌋
  else if 1/2 < x - ((⌊x⌋ : Int) : ℚ) then ⌊x⌋ + 1
  else if 2 ∣ ⌊x⌋ then ⌊x⌋ else ⌊x⌋ + 1

/-- Python `round(x, 2)`: round half to even at two decimal places
(idealised over exact rationals). -/
def pyRound2 (x : ℚ) : ℚ :=
  ((rndHalfEven (x * 100) : Int) : ℚ) / 100

/-- Mean of a list of rationals when nonempty, as SQL `AVG` over the
non-NULL values of a group (`AVG` of an empty set is NULL, hence none). -/
def avgOpt (l : List ℚ) : Option ℚ :=
  if l.isEmpty then none else some (l.sum / l.length)

/-- SQL `GROUP BY`: the distinct keys of the rows, each paired with the
rows carrying that key.  Key order follows first appearance; every
caller that needs a particular output order sorts afterwards, mirroring
the corresponding `ORDER BY`. -/
def groupByKey {α κ : Type} [DecidableEq κ] (key : α → κ) (rows : List α) :
    List (κ × List α) :=
  ((rows.map key).dedup).map fun k => (k, rows.filter fun r => decide (key r = k))

/-- Row of the admissions table (`admissions a`). -/
structure Admission where
  admission_id : Nat
  branch_id : Nat
  department_id : Nat
  admission_type : String
  admission_at : Ts
deriving DecidableEq, Repr

/-- Row of the discharges table (`discharges d`); the seed data always
writes a non-NULL outcome_code, matching the data model's outcome code
domain. -/
structure Discharge where
  admission_id : Nat
  discharge_at : Ts
  outcome_code : String
deriving DecidableEq, Repr

/-- Row of hospital_branches. -/
structure Branch where
  branch_id : Nat
  name : String
  bed_count : Nat
  icu_beds : Nat
deriving DecidableEq, Repr

/-- Row of departments. -/
structure Department where
  department_id : Nat
  branch_id : Nat
  name : String
deriving DecidableEq, Repr

/-- Row of doctors (only the columns the embedded queries read). -/
structure Doctor where
  doctor_id : Nat
  department_id : Nat
deriving DecidableEq, Repr

/-- Row of procedures (only the parent admission id is read). -/
structure ProcedureRow where
  admission_id : Nat
deriving DecidableEq, Repr

/-- Row of readmissions (only previous_admission_id is read). -/
structure ReadmissionRow where
  previous_admission_id : Nat
deriving DecidableEq, Repr

/-- Row of resource_allocation. -/
structure ResourceRow where
  branch_id : Nat
  record_date : Date
  beds_occupied : Nat
  icu_occupied : Nat
deriving DecidableEq, Repr

/-- Row of doctor_schedules. -/
structure ScheduleRow where
  doctor_id : Nat
  slot_date : Date
  is_booked : Bool
deriving DecidableEq, Repr

/-- Row of billing. -/
structure BillingRow where
  admission_id : Nat
  total_amount : ℚ
deriving DecidableEq, Repr

/-- The queryable fact store the services run against. -/
structure Db where
  admissions : List Admission
  discharges : List Discharge
  hospital_branches : List Branch
  departments : List Department
  doctors : List Doctor
  procedures : List ProcedureRow
  readmissions : List ReadmissionRow
  resource_allocation : List ResourceRow
  doctor_schedules : List ScheduleRow
  billing : List BillingRow

/-- The cohort filter shared by the service entry points: optional branch
ids, optional department ids, optional inclusive date range. -/
structure CohortFilter where
  branch_ids : Option (List Nat)
  department_ids : Option (List Nat)
  date_from : Option Date
  date_to : Option Date

/-- Python truthiness of an optional id list: filters are applied only
when the argument is a non-None, non-empty list (`if branch_ids:`). -/
def listTruthy (o : Option (List Nat)) : Bool :=
  match o with
  | none => false
  | some l => !l.isEmpty

/-- Membership clause `x = ANY(:ids)`, applied only when the id list is
truthy, exactly as the Python code builds the SQL clause. -/
def inOptList (o : Option (List Nat)) (x : Nat) : Bool :=
  if listTruthy o then (o.getD []).contains x else true

/-- Admission-timestamp range clause
`a.admission_at >= :date_from AND a.admission_at < :date_to + interval '1 day'`,
added only when both bounds are given (`if date_from and date_to:`). -/
def admDateOk (dfo dto : Option Date) (t : Ts) : Bool :=
  match dfo, dto with
  | some dfo, some dto => tsGeDate t dfo && tsLtDatePlus1 t dto
  | _, _ => true

/-- The full admission-level filter of `get_kpi_summary`
(`WHERE 1=1 {date_clause} {branch_clause} {dept_clause}` over columns of
the admissions row). -/
def admMatches (f : CohortFilter) (a : Admission) : Bool :=
  admDateOk f.date_from f.date_to a.admission_at &&
    inOptList f.branch_ids a.branch_id &&
    inOptList f.department_ids a.department_id

/-- The `adm` CTE join of `get_kpi_summary`:
`admissions a JOIN discharges d ON d.admission_id = a.admission_id`. -/
def closedEpisodes (db : Db) : List (Admission × Discharge) :=
  db.admissions.flatMap fun a =>
    (db.discharges.filter fun d => decide (d.admission_id = a.admission_id)).map
      fun d => (a, d)

/-- The filtered `adm` CTE rows of `get_kpi_summary`. -/
def kpiCohort (db : Db) (f : CohortFilter) : List (Admission × Discharge) :=
  (closedEpisodes db).filter fun e => admMatches f e.1

/-- Length of stay in fractional days of a closed episode:
`EXTRACT(EPOCH FROM (d.discharge_at - a.admission_at))/86400`. -/
def losDays (e : Admission × Discharge) : ℚ :=
  ((e.2.discharge_at.secs - e.1.admission_at.secs : Int) : ℚ) / 86400

/-- Procedure volume join of `get_kpi_summary`:
`procedures p JOIN admissions a ON a.admission_id = p.admission_id` with
the cohort filter on the admission columns; the count is the number of
join rows. -/
def procCount (db : Db) (f : CohortFilter) : Nat :=
  (db.procedures.flatMap fun p =>
    db.admissions.filter fun a =>
      decide (a.admission_id = p.admission_id) && admMatches f a).length

/-- Readmission count of `get_kpi_summary`:
`COUNT(DISTINCT r.previous_admission_id)` over
`readmissions r JOIN admissions a ON a.admission_id = r.previous_admission_id`
with the cohort filter on the admission columns. -/
def readmDistinct (db : Db) (f : CohortFilter) : List Nat :=
  ((db.readmissions.filter fun r =>
      db.admissions.any fun a =>
        decide (a.admission_id = r.previous_admission_id) && admMatches f a).map
    fun r => r.previous_admission_id).dedup

/-- Resource-allocation date clause of the occupancy sub-query
(`ra.record_date >= :date_from AND ra.record_date <= :date_to`), added
only when both bounds are given. -/
def raDateOk (dfo dto : Option Date) (rd : Date) : Bool :=
  match dfo, dto with
  | some dfo, some dto => decide (Date.le dfo rd) && decide (Date.le rd dto)
  | _, _ => true

/-- Per-row occupancy percentages of the bed-occupancy sub-query of
`get_kpi_summary`: join of resource_allocation with hospital_branches,
branch and date clauses (no department clause), the expression
`ra.beds_occupied * 100.0 / NULLIF(b.bed_count, 0)`; a zero-capacity
branch yields NULL, which `AVG` drops. -/
def kpiOccVals (db : Db) (f : CohortFilter) : List ℚ :=
  ((db.resource_allocation.flatMap fun ra =>
      (db.hospital_branches.filter fun b =>
          decide (b.branch_id = ra.branch_id)).map fun b => (ra, b)).filter
    fun rb => inOptList f.branch_ids rb.1.branch_id &&
      raDateOk f.date_from f.date_to rb.1.record_date).filterMap
    fun rb => if rb.2.bed_count = 0 then none
      else some ((rb.1.beds_occupied * 100 : ℚ) / rb.2.bed_count)

/-- Schedule slot-date clause of the utilisation sub-query, added only
when both bounds are given. -/
def schedDateOk (dfo dto : Option Date) (sd : Date) : Bool :=
  match dfo, dto with
  | some dfo, some dto => decide (Date.le dfo sd) && decide (Date.le sd dto)
  | _, _ => true

/-- Schedule rows of the doctor-utilisation sub-query of
`get_kpi_summary`: when a branch filter is present the query joins
doctors and departments and keeps slots of the selected branches,
otherwise it scans doctor_schedules alone; the date clause applies in
both shapes. -/
def utilSlotRows (db : Db) (f : CohortFilter) : List ScheduleRow :=
  if listTruthy f.branch_ids then
    ((db.doctor_schedules.flatMap fun ds =>
        (db.doctors.filter fun doc =>
            decide (doc.doctor_id = ds.doctor_id)).flatMap fun doc =>
          (db.departments.filter fun dp =>
              decide (dp.department_id = doc.department_id) &&
                inOptList f.branch_ids dp.branch_id).map fun _ => ds)).filter
      fun ds => schedDateOk f.date_from f.date_to ds.slot_date
  else
    db.doctor_schedules.filter fun ds =>
      schedDateOk f.date_from f.date_to ds.slot_date

/-- Doctor-utilisation percentage:
`COUNT(*) FILTER (WHERE ds.is_booked) * 100.0 / NULLIF(COUNT(*), 0)`,
NULL (then defaulted to 0 by `or 0`) when there are no slots. -/
def utilPct (db : Db) (f : CohortFilter) : ℚ :=
  let rows := utilSlotRows db f
  if rows.length = 0 then 0
  else ((rows.countP fun ds => ds.is_booked : Nat) : ℚ) * 100 / rows.length

/-- Billing join rows of the cost-per-discharge sub-query:
`billing b JOIN admissions a ON a.admission_id = b.admission_id` with the
cohort filter on the admission columns. -/
def billingRows (db : Db) (f : CohortFilter) : List BillingRow :=
  db.billing.flatMap fun bl =>
    (db.admissions.filter fun a =>
        decide (a.admission_id = bl.admission_id) && admMatches f a).map
      fun _ => bl

/-- Cost per discharge:
`CASE WHEN COUNT(DISTINCT b.admission_id) = 0 THEN 0
      ELSE COALESCE(SUM(b.total_amount), 0) / COUNT(DISTINCT b.admission_id) END`. -/
def costPerDischarge (db : Db) (f : CohortFilter) : ℚ :=
  let rows := billingRows db f
  let distinctIds := (rows.map fun bl => bl.admission_id).dedup
  if distinctIds.length = 0 then 0
  else (rows.map fun bl => bl.total_amount).sum / distinctIds.length

/-- The summary record returned by `get_kpi_summary` (field names follow
the returned dict). -/
structure KpiSummary where
  avg_length_of_stay_days : ℚ
  bed_occupancy_rate_pct : ℚ
  total_admissions : Nat
  total_discharges : Nat
  readmission_rate_30d_pct : ℚ
  procedure_volume : Nat
  emergency_cases_count : Nat
  scheduled_cases_count : Nat
  doctor_utilization_pct : ℚ
  cost_per_discharge_inr : ℚ
  outcome_recovered : Nat
  outcome_improved : Nat
  outcome_transferred : Nat
  outcome_deceased : Nat
  outcome_other : Nat
deriving DecidableEq, Repr

/-- The all-zero summary `_empty_kpi()` returned for an empty cohort. -/
def emptyKpi : KpiSummary :=
  { avg_length_of_stay_days := 0
    bed_occupancy_rate_pct := 0
    total_admissions := 0
    total_discharges := 0
    readmission_rate_30d_pct := 0
    procedure_volume := 0
    emergency_cases_count := 0
    scheduled_cases_count := 0
    doctor_utilization_pct := 0
    cost_per_discharge_inr := 0
    outcome_recovered := 0
    outcome_improved := 0
    outcome_transferred := 0
    outcome_deceased := 0
    outcome_other := 0 }

/-- Failure flags for the five secondary sub-queries of
`get_kpi_summary`, one per `try/except Exception` block: a set flag
means the underlying query raised for any reason and the handler's
zero default is used.  Only these five are guarded in the source; the
core admissions query is not. -/
structure QFail where
  procedures : Bool
  readmissions : Bool
  occupancy : Bool
  utilization : Bool
  billing : Bool

/-- All five secondary sub-queries succeed. -/
def QFail.none : QFail :=
  { procedures := false, readmissions := false, occupancy := false
    utilization := false, billing := false }

/-- Embedding of `get_kpi_summary` from `app/services/kpis.py`.  The
early return on an empty core row set, the `or 1` guard on the
discharge denominator, the `or 0` NULL defaults, the per-sub-query
exception absorption (via `qf`) and the 2-decimal Python rounding at
the boundary are all taken from the source.  The function is total:
no absorbed sub-query failure can escape it. -/
def get_kpi_summary (db : Db) (f : CohortFilter) (qf : QFail) : KpiSummary :=
  let cohort := kpiCohort db f
  if cohort.isEmpty then emptyKpi
  else
    let total := cohort.length
    let pc := if qf.procedures then 0 else procCount db f
    let readmCount := if qf.readmissions then 0 else (readmDistinct db f).length
    let totalDisch := if total = 0 then 1 else total
    let readmRate : ℚ := (readmCount : ℚ) / totalDisch * 100
    let bedOcc : ℚ := if qf.occupancy then 0 else (avgOpt (kpiOccVals db f)).getD 0
    let docUtil : ℚ := if qf.utilization then 0 else utilPct db f
    let costPer : ℚ := if qf.billing then 0 else costPerDischarge db f
    { avg_length_of_stay_days :=
        pyRound2 ((avgOpt (cohort.map losDays)).getD 0)
      bed_occupancy_rate_pct := pyRound2 bedOcc
      total_admissions := total
      total_discharges := total
      readmission_rate_30d_pct := pyRound2 readmRate
      procedure_volume := pc
      emergency_cases_count :=
        cohort.countP fun e => decide (e.1.admission_type = "Emergency")
      scheduled_cases_count :=
        cohort.countP fun e =>
          decide (e.1.admission_type = "Scheduled") ||
            decide (e.1.admission_type = "Transfer")
      doctor_utilization_pct := pyRound2 docUtil
      cost_per_discharge_inr := pyRound2 costPer
      outcome_recovered :=
        cohort.countP fun e => decide (e.2.outcome_code = "Recovered")
      outcome_improved :=
        cohort.countP fun e => decide (e.2.outcome_code = "Improved")
      outcome_transferred :=
        cohort.countP fun e => decide (e.2.outcome_code = "Transferred")
      outcome_deceased :=
        cohort.countP fun e => decide (e.2.outcome_code = "Deceased")
      outcome_other :=
        cohort.countP fun e =>
          !(decide (e.2.outcome_code = "Recovered") ||
            decide (e.2.outcome_code = "Improved") ||
            decide (e.2.outcome_code = "Transferred") ||
            decide (e.2.outcome_code = "Deceased")) }

/-- Ordering of pairs by chronological order of the first component,
used for the SQL `ORDER BY` on a date column of grouped rows. -/
def leByFst {β : Type} (p q : Date × β) : Prop := Date.le p.1 q.1

instance {β : Type} : DecidableRel (@leByFst β) := fun p q =>
  inferInstanceAs (Decidable (Date.le p.1 q.1))

instance {β : Type} : IsTotal (Date × β) leByFst :=
  ⟨fun p q => IsTotal.total (r := Date.le) p.1 q.1⟩

instance {β : Type} : IsTrans (Date × β) leByFst :=
  ⟨fun _ _ _ h1 h2 => Trans.trans (r := Date.le) (s := Date.le) h1 h2⟩

/-- Ordering of grouped rows by descending group size, used for
`ORDER BY long_stay_count DESC` and `ORDER BY cnt DESC` (ties are
broken arbitrarily, as in SQL). -/
def geBySize {κ α : Type} (p q : κ × List α) : Prop :=
  q.2.length ≤ p.2.length

instance {κ α : Type} : DecidableRel (@geBySize κ α) := fun p q =>
  inferInstanceAs (Decidable (q.2.length ≤ p.2.length))

/-- Ordering of value-carrying rows by descending rational value, used
for `ORDER BY occ_pct DESC`. -/
def geBySnd {κ : Type} (p q : κ × ℚ) : Prop := q.2 ≤ p.2

instance {κ : Type} : DecidableRel (@geBySnd κ) := fun p q =>
  inferInstanceAs (Decidable (q.2 ≤ p.2))

/-- A point of the daily moving-average series returned by
`get_admission_trend_with_moving_avg` (dict keys date, admissions,
moving_avg_7d). -/
structure MAPoint where
  dt : Date
  admissions : Nat
  moving_avg_7d : ℚ
deriving DecidableEq, Repr

/-- The `daily` CTE of `get_admission_trend_with_moving_avg`: admissions
of the last `days` days (lower bound only), optional branch filter,
grouped by calendar day, ordered by day (the outer `ORDER BY dt`). -/
def dailyAdmissionCounts (db : Db) (branch_ids : Option (List Nat))
    (days : Nat) (today : Date) : List (Date × Nat) :=
  let cutoff := today.subDays days
  let rows := db.admissions.filter fun a =>
    tsGeDate a.admission_at cutoff && inOptList branch_ids a.branch_id
  (List.insertionSort leByFst
    ((groupByKey (fun a => a.admission_at.day) rows).map
      fun g => (g.1, g.2.length)))

/-- The first six entries of a list, by pattern matching; used to keep
the up-to-six preceding counts of the moving-average frame. -/
def keep6 : List Nat → List Nat
  | [] => []
  | [a] => [a]
  | [a, b] => [a, b]
  | [a, b, c] => [a, b, c]
  | [a, b, c, d] => [a, b, c, d]
  | [a, b, c, d, e] => [a, b, c, d, e]
  | a :: b :: c :: d :: e :: f :: _ => [a, b, c, d, e, f]

/-- The `with_ma` stage of `get_admission_trend_with_moving_avg`:
`AVG(admissions) OVER (ORDER BY dt ROWS BETWEEN 6 PRECEDING AND
CURRENT ROW)`, then `ROUND(moving_avg::numeric, 2)`.  The frame of a
row is the row itself plus its at most six preceding rows; `recent`
accumulates the preceding counts, most recent first (the mean does not
depend on the order), kept at length at most six by `keep6`. -/
def maSeries (recent : List Nat) : List (Date × Nat) → List MAPoint
  | [] => []
  | p :: rest =>
    let win := p.2 :: recent
    { dt := p.1
      admissions := p.2
      moving_avg_7d := pgRound2 ((win.sum : ℚ) / win.length) } ::
      maSeries (keep6 win) rest

/-- Embedding of `get_admission_trend_with_moving_avg` from
`app/services/predictive.py`.  The window in the source SQL is the
hardcoded frame `ROWS BETWEEN 6 PRECEDING AND CURRENT ROW` over the
day-ordered `daily` series.  The `window_days` argument is accepted by
the Python function (and bound into the query parameters) but never
referenced by the SQL, so it does not influence the result; it is kept
here to mirror the source signature. -/
def get_admission_trend_with_moving_avg (db : Db)
    (branch_ids : Option (List Nat)) (days window_days : Nat)
    (today : Date) : List MAPoint :=
  let _ := window_days
  maSeries [] (dailyAdmissionCounts db branch_ids days today)

/-- A bottleneck flag emitted by `get_bottlenecks`; the two flag shapes
of the source (delayed-discharge and peak-hour dicts) are merged into
one structure with optional fields.  The free-text `root_cause`
message strings are not modelled. -/
structure BottleneckFlag where
  flag_type : String
  branch_id : Option Nat
  branch_name : Option String
  department_id : Option Nat
  department_name : Option String
  count : Option Nat
  avg_los_days : Option ℚ
  hour : Option Nat
  admissions_count : Option Nat
deriving DecidableEq, Repr

/-- The joined long-stay rows of the delayed-discharge query of
`get_bottlenecks`: closed episodes joined with hospital_branches and
departments, restricted to the admission date range, to length of stay
strictly above 14 days, and to the optional branch filter. -/
def longStayRows (db : Db) (branch_ids : Option (List Nat))
    (dfrom dto : Date) : List (Admission × Discharge × Branch × Department) :=
  ((closedEpisodes db).flatMap fun e =>
    (db.hospital_branches.filter fun b =>
        decide (b.branch_id = e.1.branch_id)).flatMap fun b =>
      (db.departments.filter fun dp =>
          decide (dp.department_id = e.1.department_id)).map fun dp =>
        (e.1, e.2, b, dp)).filter fun r =>
    tsGeDate r.1.admission_at dfrom && tsLtDatePlus1 r.1.admission_at dto &&
      decide ((14 : ℚ) < losDays (r.1, r.2.1)) &&
      inOptList branch_ids r.1.branch_id

/-- The delayed-discharge groups: long-stay rows grouped by
`(a.branch_id, b.name, a.department_id, dp.name)`. -/
def delayedGroups (db : Db) (branch_ids : Option (List Nat))
    (dfrom dto : Date) :
    List ((Nat × String × Nat × String) ×
      List (Admission × Discharge × Branch × Department)) :=
  groupByKey
    (fun r => (r.1.branch_id, r.2.2.1.name, r.1.department_id, r.2.2.2.name))
    (longStayRows db branch_ids dfrom dto)

/-- The delayed-discharge flags: groups with at least 5 long-stay rows
(`HAVING COUNT(*) >= 5`), ordered by descending count, each carrying
the group count and the 2-decimal rounded mean length of stay of the
long-stay rows. -/
def delayedFlags (db : Db) (branch_ids : Option (List Nat))
    (dfrom dto : Date) : List BottleneckFlag :=
  (List.insertionSort geBySize
      ((delayedGroups db branch_ids dfrom dto).filter fun g =>
        5 ≤ g.2.length)).map fun g =>
    { flag_type := "delayed_discharge"
      branch_id := some g.1.1
      branch_name := some g.1.2.1
      department_id := some g.1.2.2.1
      department_name := some g.1.2.2.2
      count := some g.2.length
      avg_los_days :=
        some (pyRound2 ((avgOpt (g.2.map fun r => losDays (r.1, r.2.1))).getD 0))
      hour := Option.none
      admissions_count := Option.none }

/-- Admissions of the peak-hour query of `get_bottlenecks`: date range
and optional branch filter, no discharge join. -/
def rangeAdmissions (db : Db) (branch_ids : Option (List Nat))
    (dfrom dto : Date) : List Admission :=
  db.admissions.filter fun a =>
    tsGeDate a.admission_at dfrom && tsLtDatePlus1 a.admission_at dto &&
      inOptList branch_ids a.branch_id

/-- The `hourly` CTE: admissions grouped by hour of day. -/
def hourlyGroups (db : Db) (branch_ids : Option (List Nat))
    (dfrom dto : Date) : List (Nat × List Admission) :=
  groupByKey (fun a => a.admission_at.hourOf)
    (rangeAdmissions db branch_ids dfrom dto)

/-- The `avg_daily` scalar `SUM(cnt) / 24.0` of the peak-hour query. -/
def avgPerHour (db : Db) (branch_ids : Option (List Nat))
    (dfrom dto : Date) : ℚ :=
  (((hourlyGroups db branch_ids dfrom dto).map fun g => g.2.length).sum : ℚ) / 24

/-- The peak-hour surplus flags: hours whose count strictly exceeds
twice the hourly mean (`WHERE h.cnt > 2 * avg_per_hour`), ordered by
descending count. -/
def peakFlags (db : Db) (branch_ids : Option (List Nat))
    (dfrom dto : Date) : List BottleneckFlag :=
  (List.insertionSort geBySize
      ((hourlyGroups db branch_ids dfrom dto).filter fun g =>
        decide (2 * avgPerHour db branch_ids dfrom dto < (g.2.length : ℚ)))).map
    fun g =>
      { flag_type := "peak_hour_surplus"
        branch_id := Option.none
        branch_name := Option.none
        department_id := Option.none
        department_name := Option.none
        count := Option.none
        avg_los_days := Option.none
        hour := some g.1
        admissions_count := some g.2.length }

/-- Embedding of `get_bottlenecks` from `app/services/predictions.py`:
the delayed-discharge flags followed by the peak-hour flags, with the
default date range of the last 30 days.  Each of the two queries is
wrapped in `try/except Exception: pass` in the source; the embedding
models the successful execution of both (a failed query contributes no
flags and no claim below concerns that path). -/
def get_bottlenecks (db : Db) (branch_ids : Option (List Nat))
    (date_from date_to : Option Date) (today : Date) : List BottleneckFlag :=
  let dfrom := date_from.getD (today.subDays 30)
  let dto := date_to.getD today
  delayedFlags db branch_ids dfrom dto ++ peakFlags db branch_ids dfrom dto

/-- An alert emitted by `get_threshold_alerts`; the doctor alerts carry
no record_date.  The free-text `message` strings (Python f-strings over
floats) are not modelled; `value_pct` is the full-precision structured
value of the dict. -/
structure Alert where
  alert_type : String
  severity : String
  branch_id : Nat
  branch_name : String
  record_date : Option Date
  value_pct : ℚ
  threshold_pct : ℚ
deriving DecidableEq, Repr

/-- The join `resource_allocation ra JOIN hospital_branches b ON
b.branch_id = ra.branch_id` shared by the occupancy queries. -/
def raJoined (db : Db) : List (ResourceRow × Branch) :=
  db.resource_allocation.flatMap fun ra =>
    (db.hospital_branches.filter fun b =>
        decide (b.branch_id = ra.branch_id)).map fun b => (ra, b)

/-- Grouped rows of the bed-occupancy alert query of
`get_threshold_alerts`: the date-range and branch-filtered join rows,
grouped by `(ra.branch_id, b.name, ra.record_date)`. -/
def bedGroups (db : Db) (branch_ids : Option (List Nat)) (dfrom dto : Date) :
    List ((Nat × String × Date) × List (ResourceRow × Branch)) :=
  groupByKey (fun rb => (rb.1.branch_id, rb.2.name, rb.1.record_date))
    ((raJoined db).filter fun rb =>
      decide (Date.le dfrom rb.1.record_date) &&
        decide (Date.le rb.1.record_date dto) &&
        inOptList branch_ids rb.1.branch_id)

/-- Mean bed-occupancy percentage of a group:
`AVG(ra.beds_occupied * 100.0 / NULLIF(b.bed_count, 0))`; rows of a
zero-capacity branch contribute NULL and are dropped by `AVG`, and a
group with only NULL rows has a NULL mean (`none`). -/
def bedOccOfGroup (g : List (ResourceRow × Branch)) : Option ℚ :=
  avgOpt (g.filterMap fun rb =>
    if rb.2.bed_count = 0 then none
    else some ((rb.1.beds_occupied * 100 : ℚ) / rb.2.bed_count))

/-- Bed-occupancy alerts: one per group whose mean occupancy passes
`HAVING AVG(...) >= :bed_threshold`, ordered by descending occupancy,
with severity "warning". -/
def bedAlerts (db : Db) (branch_ids : Option (List Nat)) (bedT : ℚ)
    (dfrom dto : Date) : List Alert :=
  (List.insertionSort geBySnd
      ((bedGroups db branch_ids dfrom dto).filterMap fun g =>
        match bedOccOfGroup g.2 with
        | none => none
        | some v => if bedT ≤ v then some (g.1, v) else none)).map fun kv =>
    { alert_type := "high_bed_occupancy"
      severity := "warning"
      branch_id := kv.1.1
      branch_name := kv.1.2.1
      record_date := some kv.1.2.2
      value_pct := kv.2
      threshold_pct := bedT }

/-- Grouped rows of the ICU alert query: as for beds but with the extra
`AND b.icu_beds > 0` row filter. -/
def icuGroups (db : Db) (branch_ids : Option (List Nat)) (dfrom dto : Date) :
    List ((Nat × String × Date) × List (ResourceRow × Branch)) :=
  groupByKey (fun rb => (rb.1.branch_id, rb.2.name, rb.1.record_date))
    ((raJoined db).filter fun rb =>
      decide (Date.le dfrom rb.1.record_date) &&
        decide (Date.le rb.1.record_date dto) &&
        decide (0 < rb.2.icu_beds) &&
        inOptList branch_ids rb.1.branch_id)

/-- ICU alerts of `get_threshold_alerts` (severity "warning", no
ORDER BY in the source query). -/
def icuAlerts (db : Db) (branch_ids : Option (List Nat)) (icuT : ℚ)
    (dfrom dto : Date) : List Alert :=
  ((icuGroups db branch_ids dfrom dto).filterMap fun g =>
    match avgOpt (g.2.filterMap fun rb =>
        if rb.2.icu_beds = 0 then none
        else some ((rb.1.icu_occupied * 100 : ℚ) / rb.2.icu_beds)) with
    | none => none
    | some v => if icuT ≤ v then some (g.1, v) else none).map fun kv =>
    { alert_type := "high_icu_utilization"
      severity := "warning"
      branch_id := kv.1.1
      branch_name := kv.1.2.1
      record_date := some kv.1.2.2
      value_pct := kv.2
      threshold_pct := icuT }

/-- The `util` derived table of the doctor-overutilisation query:
schedule slots of the date range joined with doctors, grouped by
`(doc.doctor_id, doc.department_id)`, each group reduced to its booked
percentage. -/
def doctorUtilRows (db : Db) (dfrom dto : Date) : List (Nat × ℚ) :=
  (groupByKey (fun p => (p.2.doctor_id, p.2.department_id))
      ((db.doctor_schedules.flatMap fun ds =>
          (db.doctors.filter fun doc =>
              decide (doc.doctor_id = ds.doctor_id)).map fun doc => (ds, doc)).filter
        fun p => decide (Date.le dfrom p.1.slot_date) &&
          decide (Date.le p.1.slot_date dto))).map fun g =>
    (g.1.2, ((g.2.countP fun p => p.1.is_booked : Nat) : ℚ) * 100 / g.2.length)

/-- Doctor-overutilisation alerts: the per-doctor utilisation rows
joined with departments and branches, branch-filtered, grouped by
`(d.branch_id, b.name)`, kept when the mean utilisation passes
`HAVING AVG(util.util_pct) >= :doc_threshold`; severity "info", no
record date. -/
def docAlerts (db : Db) (branch_ids : Option (List Nat)) (docT : ℚ)
    (dfrom dto : Date) : List Alert :=
  ((groupByKey (fun r => (r.2.1.branch_id, r.2.2.name))
      (((doctorUtilRows db dfrom dto).flatMap fun u =>
          (db.departments.filter fun dp =>
              decide (dp.department_id = u.1)).flatMap fun dp =>
            (db.hospital_branches.filter fun b =>
                decide (b.branch_id = dp.branch_id)).map fun b =>
              (u.2, dp, b)).filter fun r =>
        inOptList branch_ids r.2.1.branch_id)).filterMap fun g =>
    match avgOpt (g.2.map fun r => r.1) with
    | none => none
    | some v => if docT ≤ v then some (g.1, v) else none).map fun kv =>
    { alert_type := "doctor_overutilization"
      severity := "info"
      branch_id := kv.1.1
      branch_name := kv.1.2
      record_date := Option.none
      value_pct := kv.2
      threshold_pct := docT }

/-- Embedding of `get_threshold_alerts` from
`app/services/predictive.py`: bed alerts, then ICU alerts, then doctor
alerts, with the default date range of the 7 days up to today. -/
def get_threshold_alerts (db : Db) (branch_ids : Option (List Nat))
    (bedT icuT docT : ℚ) (date_from date_to : Option Date) (today : Date) :
    List Alert :=
  let dto := date_to.getD today
  let dfrom := date_from.getD (dto.subDays 7)
  bedAlerts db branch_ids bedT dfrom dto ++
    icuAlerts db branch_ids icuT dfrom dto ++
    docAlerts db branch_ids docT dfrom dto

/-- Two zero-padded decimal digits, the `MM` and `DD` patterns of
PostgreSQL `to_char` (the calendar guarantees the value is below 100). -/
def pad2 (n : Nat) : List Char :=
  [Nat.digitChar (n / 10 % 10), Nat.digitChar (n % 10)]

/-- Four zero-padded decimal digits, the `YYYY` pattern of PostgreSQL
`to_char` for years up to 9999 (the range of the repository's data;
larger years would render with more digits). -/
def pad4 (n : Nat) : List Char :=
  [Nat.digitChar (n / 1000 % 10), Nat.digitChar (n / 100 % 10),
    Nat.digitChar (n / 10 % 10), Nat.digitChar (n % 10)]

/-- The `to_char(date, 'YYYY-MM-DD')` rendering. -/
def fmtYMD (dt : Date) : String :=
  String.mk (pad4 dt.y ++ '-' :: (pad2 dt.m ++ '-' :: pad2 dt.d))

/-- The `to_char(date, 'YYYY-MM')` rendering. -/
def fmtYM (dt : Date) : String :=
  String.mk (pad4 dt.y ++ '-' :: pad2 dt.m)

/-- The `to_char(date, 'YYYY-Q')` rendering.  In a PostgreSQL `to_char`
format string `Q` is a template pattern, not literal text: it renders
the quarter number (1..4) of the date as a single digit.  So the
quarter of 2024-02-15 renders as the string 2024-1, with no letter Q. -/
def fmtYQ (dt : Date) : String :=
  String.mk (pad4 dt.y ++ '-' :: [Nat.digitChar ((dt.m - 1) / 3 + 1)])

/-- Day of week of a date (0 = Sunday), by Sakamoto's congruence; used
only to locate the ISO week start for `date_trunc('week', ...)`. -/
def dayOfWeek (dt : Date) : Nat :=
  let t : List Nat := [0, 3, 2, 5, 0, 3, 5, 1, 4, 6, 2, 4]
  let yy := if dt.m < 3 then dt.y - 1 else dt.y
  (yy + yy / 4 - yy / 100 + yy / 400 + t.getD (dt.m - 1) 0 + dt.d) % 7

/-- The Monday starting the ISO week of a date,
`date_trunc('week', ...)::date`. -/
def weekStart (dt : Date) : Date :=
  dt.subDays ((dayOfWeek dt + 6) % 7)

/-- The `period_expr` of `get_trends`: calendar truncation of a date for
the requested granularity.  The source dispatches on the granularity
string with a final `else` branch, so any unrecognised string means
quarterly. -/
def periodTrunc (gran : String) (dt : Date) : Date :=
  if gran = "daily" then dt
  else if gran = "weekly" then weekStart dt
  else if gran = "monthly" then ⟨dt.y, dt.m, 1⟩
  else ⟨dt.y, 3 * ((dt.m - 1) / 3) + 1, 1⟩

/-- The `period_label` of `get_trends`, rendered from the truncated
date (for the daily case `to_char(ts, 'YYYY-MM-DD')` equals the
rendering of the timestamp's calendar day, which is the truncated
date). -/
def periodLabel (gran : String) (dt : Date) : String :=
  if gran = "daily" then fmtYMD dt
  else if gran = "weekly" then fmtYMD dt
  else if gran = "monthly" then fmtYM dt
  else fmtYQ dt

/-- A point of the trend series returned by `get_trends`. -/
structure TrendPoint where
  period : String
  period_dt : Date
  admissions : Nat
  discharges : Nat
  avg_los_days : ℚ
  occupancy_pct : ℚ
deriving DecidableEq, Repr

/-- The filtered `adm` rows of `get_trends` (closed episodes in the
resolved date range, with the optional branch and department filters;
the resolved bounds are always present, so the range clause always
applies). -/
def trendCohort (db : Db) (f : CohortFilter) (today : Date) :
    List (Admission × Discharge) :=
  let dfrom := f.date_from.getD (today.subDays 90)
  let dto := f.date_to.getD today
  (closedEpisodes db).filter fun e =>
    tsGeDate e.1.admission_at dfrom && tsLtDatePlus1 e.1.admission_at dto &&
      inOptList f.branch_ids e.1.branch_id &&
      inOptList f.department_ids e.1.department_id

/-- The occupancy side map of `get_trends`: resource rows of the date
range joined with branches, grouped by the period label of the record
date, each group reduced to its mean occupancy percentage with NULL
defaulted to 0 (`float(r.occ_pct or 0)`).  In the source the query
groups by the label (`GROUP BY 1`). -/
def trendOccPairs (db : Db) (gran : String) (f : CohortFilter)
    (today : Date) : List (String × ℚ) :=
  let dfrom := f.date_from.getD (today.subDays 90)
  let dto := f.date_to.getD today
  (groupByKey (fun rb => periodLabel gran (periodTrunc gran rb.1.record_date))
      ((raJoined db).filter fun rb =>
        decide (Date.le dfrom rb.1.record_date) &&
          decide (Date.le rb.1.record_date dto) &&
          inOptList f.branch_ids rb.1.branch_id)).map fun g =>
    (g.1, (avgOpt (g.2.filterMap fun rb =>
      if rb.2.bed_count = 0 then none
      else some ((rb.1.beds_occupied * 100 : ℚ) / rb.2.bed_count))).getD 0)

/-- Embedding of `get_trends` from `app/services/trends.py`: closed
episodes bucketed by the calendar truncation of their admission
timestamp, ordered by the truncated date (`ORDER BY period_dt`), each
point carrying the label, the bucket admission count (mirrored into
discharges), the rounded mean length of stay, and the rounded
occupancy of the matching label (0 when absent).  The occupancy query
is wrapped in `try/except` in the source: `occFail` set means it
raised and the empty map is used.  In the source the bucket key is the
pair (period_dt, period_label); the label is a function of the
truncated date, so bucketing by the truncated date is the same
grouping. -/
def get_trends (db : Db) (gran : String) (f : CohortFilter) (today : Date)
    (occFail : Bool) : List TrendPoint :=
  let occPairs := if occFail then [] else trendOccPairs db gran f today
  (List.insertionSort leByFst
      (groupByKey (fun e => periodTrunc gran e.1.admission_at.day)
        (trendCohort db f today))).map fun g =>
    { period := periodLabel gran g.1
      period_dt := g.1
      admissions := g.2.length
      discharges := g.2.length
      avg_los_days := pyRound2 ((avgOpt (g.2.map losDays)).getD 0)
      occupancy_pct :=
        pyRound2 (((occPairs.find? fun p =>
          decide (p.1 = periodLabel gran g.1)).map fun p => p.2).getD 0) }

/-- Well-formedness of a calendar date as stored in the SQL date and
timestamp columns: a real month and day, and a year within the 4-digit
range rendered by the `YYYY` pattern (the repository's seeded data is
confined to recent years). -/
def Date.Wf (dt : Date) : Prop :=
  1 ≤ dt.m ∧ dt.m ≤ 12 ∧ 1 ≤ dt.d ∧ dt.d ≤ 31 ∧ dt.y ≤ 9999

instance (dt : Date) : Decidable dt.Wf := by
  unfold Date.Wf; infer_instance

/-- The long-stay rows of one (branch, department) pair, the subset the
delayed-discharge heuristic counts for that group. -/
def delayedGroupRows (db : Db) (branch_ids : Option (List Nat))
    (dfrom dto : Date) (bid did : Nat) :
    List (Admission × Discharge × Branch × Department) :=
  (longStayRows db branch_ids dfrom dto).filter fun r =>
    decide (r.1.branch_id = bid) && decide (r.1.department_id = did)

/-- The filtered resource rows of one (branch id, record date) pair in
the bed-occupancy alert query; its `bedOccOfGroup` is the mean bed
occupancy of that branch and day. -/
def bedGroupRows (db : Db) (branch_ids : Option (List Nat))
    (dfrom dto : Date) (bid : Nat) (dt : Date) : List (ResourceRow × Branch) :=
  (raJoined db).filter fun rb =>
    decide (Date.le dfrom rb.1.record_date) &&
      decide (Date.le rb.1.record_date dto) &&
      inOptList branch_ids rb.1.branch_id &&
      decide (rb.1.branch_id = bid) && decide (rb.1.record_date = dt)

/-- The filter with no branch set, no department set and no date range. -/
def fNone : CohortFilter :=
  { branch_ids := none, department_ids := none
    date_from := none, date_to := none }

/-- A fact store with every table empty. -/
def dbEmpty : Db :=
  { admissions := [], discharges := [], hospital_branches := []
    departments := [], doctors := [], procedures := [], readmissions := []
    resource_allocation := [], doctor_schedules := [], billing := [] }

/-- A fact store with a single closed episode and nothing else. -/
def dbOne : Db :=
  { admissions :=
      [⟨1, 1, 1, "Emergency", ⟨⟨2024, 1, 1⟩, 36000⟩⟩]
    discharges := [⟨1, ⟨⟨2024, 1, 4⟩, 36000⟩, "Recovered"⟩]
    hospital_branches := [], departments := [], doctors := []
    procedures := [], readmissions := [], resource_allocation := []
    doctor_schedules := [], billing := [] }

/-- A fact store whose admissions fall on three consecutive days with
daily counts 3, 1, 1; used to exercise the moving-average window. -/
def dbMA : Db :=
  { admissions :=
      [⟨1, 1, 1, "Emergency", ⟨⟨2024, 1, 1⟩, 3600⟩⟩,
        ⟨2, 1, 1, "Emergency", ⟨⟨2024, 1, 1⟩, 7200⟩⟩,
        ⟨3, 1, 1, "Emergency", ⟨⟨2024, 1, 1⟩, 10800⟩⟩,
        ⟨4, 1, 1, "Emergency", ⟨⟨2024, 1, 2⟩, 3600⟩⟩,
        ⟨5, 1, 1, "Emergency", ⟨⟨2024, 1, 3⟩, 3600⟩⟩]
    discharges := [], hospital_branches := [], departments := []
    doctors := [], procedures := [], readmissions := []
    resource_allocation := [], doctor_schedules := [], billing := [] }

/-- A fact store with one closed episode admitted 2024-02-15, in the
first quarter of 2024; used to exercise the quarterly trend label. -/
def dbQ : Db :=
  { admissions := [⟨1, 1, 1, "Scheduled", ⟨⟨2024, 2, 15⟩, 3600⟩⟩]
    discharges := [⟨1, ⟨⟨2024, 2, 20⟩, 3600⟩, "Recovered"⟩]
    hospital_branches := [], departments := [], doctors := []
    procedures := [], readmissions := [], resource_allocation := []
    doctor_schedules := [], billing := [] }

/-- A fact store with five long-stay closed episodes in one branch and
department; used to exercise the delayed-discharge heuristic. -/
def dbLS : Db :=
  { admissions :=
      [⟨1, 1, 7, "Emergency", ⟨⟨2024, 1, 2⟩, 0⟩⟩,
        ⟨2, 1, 7, "Emergency", ⟨⟨2024, 1, 2⟩, 0⟩⟩,
        ⟨3, 1, 7, "Emergency", ⟨⟨2024, 1, 2⟩, 0⟩⟩,
        ⟨4, 1, 7, "Emergency", ⟨⟨2024, 1, 2⟩, 0⟩⟩,
        ⟨5, 1, 7, "Emergency", ⟨⟨2024, 1, 2⟩, 0⟩⟩]
    discharges :=
      [⟨1, ⟨⟨2024, 1, 17⟩, 3600⟩, "Recovered"⟩,
        ⟨2, ⟨⟨2024, 1, 17⟩, 3600⟩, "Recovered"⟩,
        ⟨3, ⟨⟨2024, 1, 17⟩, 3600⟩, "Improved"⟩,
        ⟨4, ⟨⟨2024, 1, 17⟩, 3600⟩, "Recovered"⟩,
        ⟨5, ⟨⟨2024, 1, 17⟩, 3600⟩, "Recovered"⟩]
    hospital_branches := [⟨1, "B1", 10, 2⟩]
    departments := [⟨7, 1, "D1"⟩]
    doctors := [], procedures := [], readmissions := []
    resource_allocation := [], doctor_schedules := [], billing := [] }

/-- A fact store with one branch and one resource snapshot at 90 percent
bed occupancy; used to exercise the bed-occupancy threshold alert. -/
def dbRes : Db :=
  { admissions := [], discharges := []
    hospital_branches := [⟨1, "B1", 10, 2⟩]
    departments := [], doctors := [], procedures := [], readmissions := []
    resource_allocation := [⟨1, ⟨2024, 1, 10⟩, 9, 1⟩]
    doctor_schedules := [], billing := [] }

theorem mem_groupByKey {α κ : Type} [DecidableEq κ] (key : α → κ)
    (rows : List α) (k : κ) (g : List α) :
    (k, g) ∈ groupByKey key rows ↔
      ((∃ r ∈ rows, key r = k) ∧ g = rows.filter fun r => decide (key r = k)) := by
  simp only [groupByKey, List.mem_map, Prod.mk.injEq, List.mem_dedup]
  constructor
  · rintro ⟨k', hk', hkk', hg⟩
    subst hkk'
    exact ⟨hk', hg.symm⟩
  · rintro ⟨⟨r, hr, hkr⟩, hg⟩
    exact ⟨k, ⟨r, hr, hkr⟩, rfl, hg.symm⟩

theorem groupByKey_map_fst {α κ : Type} [DecidableEq κ] (key : α → κ)
    (rows : List α) :
    (groupByKey key rows).map Prod.fst = (rows.map key).dedup := by
  simp [groupByKey, List.map_map, Function.comp_def]

theorem groupByKey_keys_nodup {α κ : Type} [DecidableEq κ] (key : α → κ)
    (rows : List α) : ((groupByKey key rows).map Prod.fst).Nodup := by
  rw [groupByKey_map_fst]
  exact List.nodup_dedup _

theorem mem_groupByKey_of_mem {α κ : Type} [DecidableEq κ] (key : α → κ)
    (rows : List α) {gk : κ × List α} (hgk : gk ∈ groupByKey key rows) :
    (∃ r ∈ rows, key r = gk.1) ∧
      gk.2 = rows.filter fun r => decide (key r = gk.1) := by
  obtain ⟨k, g⟩ := gk
  exact (mem_groupByKey key rows k g).mp hgk

theorem length_filter_key_eq_count {α κ : Type} [DecidableEq κ]
    (key : α → κ) (rows : List α) (k : κ) :
    (rows.filter fun r => decide (key r = k)).length =
      (rows.map key).countP fun x => decide (x = k) := by
  rw [← List.countP_eq_length_filter, List.countP_map]
  rfl

theorem sum_groupByKey_sizes {α κ : Type} [DecidableEq κ] (key : α → κ)
    (rows : List α) :
    (((groupByKey key rows).map fun g => g.2.length).sum) = rows.length := by
  have hmap : ((groupByKey key rows).map fun g => g.2.length) =
      ((rows.map key).dedup).map fun k => List.count k (rows.map key) := by
    simp only [groupByKey, List.map_map]
    refine List.map_congr_left fun k _ => ?_
    simp only [Function.comp]
    rw [length_filter_key_eq_count]
    rw [List.count]
    refine List.countP_congr fun x _ => ?_
    by_cases h : x = k <;> simp [h]
  rw [hmap]
  have := List.sum_map_count_dedup_eq_length (rows.map key)
  simpa [List.length_map] using this

theorem rndHalfEven_bounds (x : ℚ) :
    x - 1/2 ≤ ((rndHalfEven x : Int) : ℚ) ∧ ((rndHalfEven x : Int) : ℚ) ≤ x + 1/2 := by
  unfold rndHalfEven
  have h1 : ((⌊x⌋ : Int) : ℚ) ≤ x := Int.floor_le x
  have h2 : x < ((⌊x⌋ : Int) : ℚ) + 1 := Int.lt_floor_add_one x
  split
  · constructor <;> [linarith; linarith]
  · split
    · push_cast
      constructor <;> [linarith; linarith]
    · split
      · constructor <;> [linarith; linarith]
      · push_cast
        constructor <;> [linarith; linarith]

theorem pyRound2_zero : pyRound2 0 = 0 := by
  norm_num [pyRound2, rndHalfEven]

theorem pyRound2_nonneg {x : ℚ} (hx : 0 ≤ x) : 0 ≤ pyRound2 x := by
  unfold pyRound2
  have h := (rndHalfEven_bounds (x * 100)).1
  have hge : (0 : ℚ) ≤ ((rndHalfEven (x * 100) : Int) : ℚ) := by
    by_contra hlt
    push_neg at hlt
    have : (rndHalfEven (x * 100) : Int) < 0 := by exact_mod_cast hlt
    have hle : (rndHalfEven (x * 100) : Int) ≤ -1 := by omega
    have : ((rndHalfEven (x * 100) : Int) : ℚ) ≤ -1 := by exact_mod_cast hle
    nlinarith
  positivity

theorem pyRound2_le_100 {x : ℚ} (hx : x ≤ 100) : pyRound2 x ≤ 100 := by
  unfold pyRound2
  have h := (rndHalfEven_bounds (x * 100)).2
  have hle : (rndHalfEven (x * 100) : Int) ≤ 10000 := by
    by_contra hlt
    push_neg at hlt
    have hge : (10001 : Int) ≤ rndHalfEven (x * 100) := by omega
    have : (10001 : ℚ) ≤ ((rndHalfEven (x * 100) : Int) : ℚ) := by exact_mod_cast hge
    nlinarith
  have : ((rndHalfEven (x * 100) : Int) : ℚ) ≤ 10000 := by exact_mod_cast hle
  linarith

theorem outcome_countP_partition (l : List (Admission × Discharge)) :
    (l.countP fun e => decide (e.2.outcome_code = "Recovered")) +
    (l.countP fun e => decide (e.2.outcome_code = "Improved")) +
    (l.countP fun e => decide (e.2.outcome_code = "Transferred")) +
    (l.countP fun e => decide (e.2.outcome_code = "Deceased")) +
    (l.countP fun e =>
      !(decide (e.2.outcome_code = "Recovered") ||
        decide (e.2.outcome_code = "Improved") ||
        decide (e.2.outcome_code = "Transferred") ||
        decide (e.2.outcome_code = "Deceased"))) = l.length := by
  induction l with
  | nil => rfl
  | cons e l ih =>
    simp only [List.countP_cons, List.length_cons]
    simp only [Bool.not_or] at ih ⊢
    by_cases h1 : e.2.outcome_code = "Recovered"
    · simp [h1]
      omega
    · by_cases h2 : e.2.outcome_code = "Improved"
      · simp [h1, h2]
        omega
      · by_cases h3 : e.2.outcome_code = "Transferred"
        · simp [h1, h2, h3]
          omega
        · by_cases h4 : e.2.outcome_code = "Deceased"
          · simp [h1, h2, h3, h4]
            omega
          · simp [h1, h2, h3, h4]
            omega

/-- C2: for every cohort filter (and any pattern of secondary sub-query
failures), the five outcome buckets of the KPI summary partition the
closed episodes, so their counts sum to total_discharges. -/
theorem kpi_outcome_buckets_sum_to_discharges (db : Db) (f : CohortFilter)
    (qf : QFail) :
    (get_kpi_summary db f qf).outcome_recovered +
      (get_kpi_summary db f qf).outcome_improved +
      (get_kpi_summary db f qf).outcome_transferred +
      (get_kpi_summary db f qf).outcome_deceased +
      (get_kpi_summary db f qf).outcome_other =
      (get_kpi_summary db f qf).total_discharges := by
  by_cases hc : (kpiCohort db f).isEmpty
  · simp [get_kpi_summary, hc, emptyKpi]
  · have h := outcome_countP_partition (kpiCohort db f)
    simp only [Bool.not_or] at h
    simp only [get_kpi_summary, hc, Bool.false_eq_true, if_false, Bool.not_or]
    omega

/-- C3: a cohort filter matching zero closed episodes yields the
all-zero summary `_empty_kpi()`; the embedded function is total, so no
error is raised on this path (the source returns before any secondary
sub-query runs). -/
theorem kpi_empty_cohort_all_zero (db : Db) (f : CohortFilter) (qf : QFail)
    (h : kpiCohort db f = []) :
    get_kpi_summary db f qf = emptyKpi ∧
      get_kpi_summary db f qf =
        ⟨0, 0, 0, 0, 0, 0, 0, 0, 0, 0, 0, 0, 0, 0, 0⟩ := by
  have hc : (kpiCohort db f).isEmpty = true := by simp [h]
  constructor <;> simp [get_kpi_summary, hc, emptyKpi]

theorem kpi_empty_cohort_all_zero_witness :
    get_kpi_summary dbEmpty fNone QFail.none = emptyKpi ∧
      get_kpi_summary dbEmpty fNone QFail.none =
        ⟨0, 0, 0, 0, 0, 0, 0, 0, 0, 0, 0, 0, 0, 0, 0⟩ :=
  kpi_empty_cohort_all_zero dbEmpty fNone QFail.none (by decide)

/-- C4: for a nonempty cohort, a failure of any of the five secondary
sub-queries (modelled by its `QFail` flag, set when the underlying
query raises for any reason) degrades exactly that sub-aggregate's
field to zero; the embedded function is total, so the absorbed
exception never propagates to the caller. -/
theorem kpi_subaggregate_failure_isolated (db : Db) (f : CohortFilter)
    (qf : QFail) (h : kpiCohort db f ≠ []) :
    (qf.procedures = true → (get_kpi_summary db f qf).procedure_volume = 0) ∧
      (qf.readmissions = true →
        (get_kpi_summary db f qf).readmission_rate_30d_pct = 0) ∧
      (qf.occupancy = true →
        (get_kpi_summary db f qf).bed_occupancy_rate_pct = 0) ∧
      (qf.utilization = true →
        (get_kpi_summary db f qf).doctor_utilization_pct = 0) ∧
      (qf.billing = true →
        (get_kpi_summary db f qf).cost_per_discharge_inr = 0) := by
  have hc : (kpiCohort db f).isEmpty = false := by
    simpa [List.isEmpty_iff] using h
  refine ⟨fun hq => ?_, fun hq => ?_, fun hq => ?_, fun hq => ?_, fun hq => ?_⟩ <;>
    simp [get_kpi_summary, hc, hq, pyRound2_zero]

theorem kpi_subaggregate_failure_isolated_witness :
    (true = true →
      (get_kpi_summary dbOne fNone ⟨true, true, true, true, true⟩).procedure_volume = 0) ∧
      (true = true →
        (get_kpi_summary dbOne fNone ⟨true, true, true, true, true⟩).readmission_rate_30d_pct = 0) ∧
      (true = true →
        (get_kpi_summary dbOne fNone ⟨true, true, true, true, true⟩).bed_occupancy_rate_pct = 0) ∧
      (true = true →
        (get_kpi_summary dbOne fNone ⟨true, true, true, true, true⟩).doctor_utilization_pct = 0) ∧
      (true = true →
        (get_kpi_summary dbOne fNone ⟨true, true, true, true, true⟩).cost_per_discharge_inr = 0) :=
  kpi_subaggregate_failure_isolated dbOne fNone ⟨true, true, true, true, true⟩
    (by decide)

/-- C1: the moving-average series is day-ordered and the first point
equals its raw count, but the window ignores the window_days argument:
on daily counts 3, 1, 1 with window_days = 2, the third point's
average is ROUND((3+1+1)/3, 2) = 1.67 (the hardcoded frame of 6
preceding rows plus the current row), not the trailing 2-day mean
(1+1)/2 = 1 the contract requires.  This exhibits the failing input of
the code_bug: the Python signature accepts window_days (the API router
validates it into 3..30) and binds it into the query parameters, but
the SQL frame `ROWS BETWEEN 6 PRECEDING AND CURRENT ROW` never uses
it. -/
theorem moving_avg_ignores_window_days :
    ((get_admission_trend_with_moving_avg dbMA none 90 2 ⟨2024, 1, 3⟩).map
        fun p => p.moving_avg_7d) = [3, 2, 167/100] ∧
      (167/100 : ℚ) ≠ (1 + 1) / 2 := by
  have h1 : dailyAdmissionCounts dbMA none 90 ⟨2024, 1, 3⟩ =
      [(⟨2024, 1, 1⟩, 3), (⟨2024, 1, 2⟩, 1), (⟨2024, 1, 3⟩, 1)] := by decide
  constructor
  · rw [show get_admission_trend_with_moving_avg dbMA none 90 2 ⟨2024, 1, 3⟩ =
      maSeries [] (dailyAdmissionCounts dbMA none 90 ⟨2024, 1, 3⟩) from rfl, h1]
    simp only [maSeries, keep6, List.map_cons, List.map_nil]
    norm_num [pgRound2]
  · norm_num

/-- C10 counterexample: the quarterly trend label of a first-quarter
2024 episode is the string 2024-1 and not 2024-Q1: in the PostgreSQL
format string `YYYY-Q` the `Q` is the quarter-number template pattern,
not a literal letter. -/
theorem quarterly_label_counterexample :
    ((get_trends dbQ "quarterly" fNone ⟨2024, 3, 1⟩ false).map
        fun p => p.period) = ["2024-1"] ∧
      ("2024-1" : String) ≠ "2024-Q1" := by
  have h1 : List.insertionSort leByFst
      (groupByKey (fun e => periodTrunc "quarterly" e.1.admission_at.day)
        (trendCohort dbQ fNone ⟨2024, 3, 1⟩)) =
      [(⟨2024, 1, 1⟩,
        [(⟨1, 1, 1, "Scheduled", ⟨⟨2024, 2, 15⟩, 3600⟩⟩,
          ⟨1, ⟨⟨2024, 2, 20⟩, 3600⟩, "Recovered"⟩)])] := by decide
  constructor
  · simp only [get_trends, h1, List.map_cons, List.map_nil]
    decide
  · decide

theorem readmDistinct_subset (db : Db) (f : CohortFilter)
    (h3 : ∀ r ∈ db.readmissions, ∀ a ∈ db.admissions,
      a.admission_id = r.previous_admission_id →
        ∃ d ∈ db.discharges, d.admission_id = a.admission_id) :
    readmDistinct db f ⊆ (kpiCohort db f).map fun e => e.1.admission_id := by
  intro x hx
  simp only [readmDistinct, List.mem_dedup, List.mem_map, List.mem_filter] at hx
  obtain ⟨r, ⟨hr, hany⟩, hprev⟩ := hx
  rw [List.any_eq_true] at hany
  obtain ⟨a, ha, hcond⟩ := hany
  rw [Bool.and_eq_true, decide_eq_true_eq] at hcond
  obtain ⟨hid, hm⟩ := hcond
  obtain ⟨d, hd, hdid⟩ := h3 r hr a ha hid
  refine List.mem_map.mpr ⟨(a, d), ?_, by rw [← hprev, hid]⟩
  simp only [kpiCohort, List.mem_filter]
  refine ⟨?_, hm⟩
  simp only [closedEpisodes, List.mem_flatMap, List.mem_map]
  exact ⟨a, ha, d, List.mem_filter.mpr ⟨hd, by simpa using hdid⟩, rfl⟩

theorem readmDistinct_length_le (db : Db) (f : CohortFilter)
    (h3 : ∀ r ∈ db.readmissions, ∀ a ∈ db.admissions,
      a.admission_id = r.previous_admission_id →
        ∃ d ∈ db.discharges, d.admission_id = a.admission_id) :
    (readmDistinct db f).length ≤ (kpiCohort db f).length := by
  have h := ((List.nodup_dedup _).subperm (readmDistinct_subset db f h3)).length_le
  simpa [readmDistinct] using h

/-- C8: the readmission rate lies in 0..100 for every cohort with at
least one discharge, and is 0 (an actual zero rational, not NaN) for an
empty cohort.  The hypothesis is the referential integrity of the
readmissions fact: a previous_admission_id that matches an admission
row refers to a closed (discharged) episode, which is the data model's
readmission invariant (a readmission links a discharged prior episode
to a later one). -/
theorem readmission_rate_in_bounds (db : Db) (f : CohortFilter) (qf : QFail)
    (h3 : ∀ r ∈ db.readmissions, ∀ a ∈ db.admissions,
      a.admission_id = r.previous_admission_id →
        ∃ d ∈ db.discharges, d.admission_id = a.admission_id) :
    (kpiCohort db f ≠ [] →
      0 ≤ (get_kpi_summary db f qf).readmission_rate_30d_pct ∧
        (get_kpi_summary db f qf).readmission_rate_30d_pct ≤ 100) ∧
    (kpiCohort db f = [] →
      (get_kpi_summary db f qf).readmission_rate_30d_pct = 0) := by
  constructor
  · intro h
    have hc : (kpiCohort db f).isEmpty = false := by
      simpa [List.isEmpty_iff] using h
    have hpos : 0 < (kpiCohort db f).length := List.length_pos.mpr h
    have hne : ¬ (kpiCohort db f).length = 0 := by omega
    simp only [get_kpi_summary, hc, Bool.false_eq_true, if_false, hne]
    set n : Nat := if qf.readmissions then 0 else (readmDistinct db f).length with hn
    have hle : n ≤ (kpiCohort db f).length := by
      rw [hn]
      split
      · omega
      · exact readmDistinct_length_le db f h3
    have hq : (0 : ℚ) < ((kpiCohort db f).length : ℚ) := by
      exact_mod_cast hpos
    have hraw0 : (0 : ℚ) ≤ (n : ℚ) / ((kpiCohort db f).length : ℚ) * 100 := by
      positivity
    have hraw100 : (n : ℚ) / ((kpiCohort db f).length : ℚ) * 100 ≤ 100 := by
      have hdiv : (n : ℚ) / ((kpiCohort db f).length : ℚ) ≤ 1 :=
        (div_le_one hq).mpr (by exact_mod_cast hle)
      nlinarith
    exact ⟨pyRound2_nonneg hraw0, pyRound2_le_100 hraw100⟩
  · intro h
    have hc : (kpiCohort db f).isEmpty = true := by simp [h]
    simp [get_kpi_summary, hc, emptyKpi]

theorem readmission_rate_in_bounds_witness :
    (kpiCohort dbOne fNone ≠ [] →
      0 ≤ (get_kpi_summary dbOne fNone QFail.none).readmission_rate_30d_pct ∧
        (get_kpi_summary dbOne fNone QFail.none).readmission_rate_30d_pct ≤ 100) ∧
    (kpiCohort dbOne fNone = [] →
      (get_kpi_summary dbOne fNone QFail.none).readmission_rate_30d_pct = 0) :=
  readmission_rate_in_bounds dbOne fNone QFail.none (by decide)

theorem delayedFlags_type (db : Db) (bf : Option (List Nat)) (d1 d2 : Date)
    {fl : BottleneckFlag} (h : fl ∈ delayedFlags db bf d1 d2) :
    fl.flag_type = "delayed_discharge" := by
  simp only [delayedFlags, List.mem_map] at h
  obtain ⟨g, _, rfl⟩ := h
  rfl

theorem peakFlags_shape (db : Db) (bf : Option (List Nat)) (d1 d2 : Date)
    {fl : BottleneckFlag} (h : fl ∈ peakFlags db bf d1 d2) :
    fl.flag_type = "peak_hour_surplus" ∧
      ∃ g ∈ (hourlyGroups db bf d1 d2).filter
        (fun g => decide (2 * avgPerHour db bf d1 d2 < (g.2.length : ℚ))),
        fl.hour = some g.1 := by
  simp only [peakFlags, List.mem_map] at h
  obtain ⟨g, hg, rfl⟩ := h
  refine ⟨rfl, g, ?_, rfl⟩
  exact ((List.perm_insertionSort _ _).mem_iff).mp hg

theorem avgPerHour_eq (db : Db) (bf : Option (List Nat)) (d1 d2 : Date) :
    avgPerHour db bf d1 d2 = ((rangeAdmissions db bf d1 d2).length : ℚ) / 24 := by
  unfold avgPerHour hourlyGroups
  rw [show (List.map (fun g => ((g.2.length : Nat) : ℚ))
        (groupByKey (fun a => a.admission_at.hourOf) (rangeAdmissions db bf d1 d2))) =
      List.map (fun n : Nat => (n : ℚ))
        (List.map (fun g => g.2.length)
          (groupByKey (fun a => a.admission_at.hourOf)
            (rangeAdmissions db bf d1 d2))) from by rw [List.map_map]; rfl]
  rw [← Nat.cast_list_sum, sum_groupByKey_sizes]

/-- C5: the bottleneck detector emits a peak-hour surplus flag for
hour H exactly when the admission count at hour H strictly exceeds
twice the hourly mean (total admissions in the resolved date range
divided by 24); in particular an hour whose count equals exactly twice
the mean is not flagged, the comparison being strict. -/
theorem peak_hour_flag_iff (db : Db) (bf : Option (List Nat))
    (dfo dto : Option Date) (today : Date) (H : Nat) :
    (∃ fl ∈ get_bottlenecks db bf dfo dto today,
      fl.flag_type = "peak_hour_surplus" ∧ fl.hour = some H) ↔
    2 * (((rangeAdmissions db bf (dfo.getD (today.subDays 30))
        (dto.getD today)).length : ℚ) / 24) <
      (((rangeAdmissions db bf (dfo.getD (today.subDays 30))
        (dto.getD today)).filter
          fun a => decide (a.admission_at.hourOf = H)).length : ℚ) := by
  set d1 := dfo.getD (today.subDays 30) with hd1
  set d2 := dto.getD today with hd2
  have hsplit : get_bottlenecks db bf dfo dto today =
      delayedFlags db bf d1 d2 ++ peakFlags db bf d1 d2 := rfl
  rw [hsplit]
  constructor
  · rintro ⟨fl, hmem, htype, hhour⟩
    rcases List.mem_append.mp hmem with hL | hR
    · rw [delayedFlags_type db bf d1 d2 hL] at htype
      exact absurd htype (by decide)
    · obtain ⟨-, g, hg, hgh⟩ := peakFlags_shape db bf d1 d2 hR
      rw [List.mem_filter] at hg
      obtain ⟨hgrp, hcond⟩ := hg
      rw [decide_eq_true_eq] at hcond
      obtain ⟨-, hgeq⟩ := mem_groupByKey_of_mem _ _ hgrp
      rw [hhour] at hgh
      have hH : g.1 = H := by injection hgh.symm
      rw [avgPerHour_eq] at hcond
      rw [hgeq, hH] at hcond
      simpa [hourlyGroups] using hcond
  · intro hcnt
    have havg0 : (0 : ℚ) ≤
        2 * (((rangeAdmissions db bf d1 d2).length : ℚ) / 24) := by positivity
    have hpos : 0 < ((rangeAdmissions db bf d1 d2).filter
        fun a => decide (a.admission_at.hourOf = H)).length := by
      rcases Nat.eq_zero_or_pos ((rangeAdmissions db bf d1 d2).filter
        fun a => decide (a.admission_at.hourOf = H)).length with hf | hp
      · rw [hf] at hcnt
        push_cast at hcnt
        linarith
      · exact hp
    have hne : (rangeAdmissions db bf d1 d2).filter
        (fun a => decide (a.admission_at.hourOf = H)) ≠ [] := by
      intro hnil
      rw [hnil] at hpos
      simp at hpos
    obtain ⟨a, ha⟩ := List.exists_mem_of_ne_nil _ hne
    have haR := (List.mem_filter.mp ha).1
    have haH : a.admission_at.hourOf = H := by
      have := (List.mem_filter.mp ha).2
      simpa using this
    have hgrp : (H, (rangeAdmissions db bf d1 d2).filter
        fun r => decide (r.admission_at.hourOf = H)) ∈
        hourlyGroups db bf d1 d2 := by
      unfold hourlyGroups
      exact (mem_groupByKey _ _ _ _).mpr ⟨⟨a, haR, haH⟩, rfl⟩
    have hcond : decide (2 * avgPerHour db bf d1 d2 <
        ((((rangeAdmissions db bf d1 d2).filter
          fun r => decide (r.admission_at.hourOf = H)).length : Nat) : ℚ)) = true := by
      rw [decide_eq_true_eq, avgPerHour_eq]
      exact hcnt
    have hmemf : (H, (rangeAdmissions db bf d1 d2).filter
        fun r => decide (r.admission_at.hourOf = H)) ∈
        (hourlyGroups db bf d1 d2).filter
          (fun g => decide (2 * avgPerHour db bf d1 d2 < (g.2.length : ℚ))) :=
      List.mem_filter.mpr ⟨hgrp, hcond⟩
    refine ⟨_, List.mem_append.mpr (Or.inr (List.mem_map.mpr
      ⟨_, ((List.perm_insertionSort _ _).mem_iff).mpr hmemf, rfl⟩)), rfl, rfl⟩

theorem nodup_key_unique {α κ : Type} (kf : α → κ) {l : List α}
    (h : (l.map kf).Nodup) {x y : α} (hx : x ∈ l) (hy : y ∈ l)
    (hk : kf x = kf y) : x = y := by
  by_contra hne
  have hp : l.Pairwise fun a b => kf a ≠ kf b := List.pairwise_map.mp h
  have hsym : Symmetric fun a b : α => kf a ≠ kf b := fun a b hab he => hab he.symm
  exact (hp.forall hsym hx hy hne) hk

theorem mem_longStayRows {db : Db} {bf : Option (List Nat)} {d1 d2 : Date}
    {r : Admission × Discharge × Branch × Department}
    (h : r ∈ longStayRows db bf d1 d2) :
    r.2.2.1 ∈ db.hospital_branches ∧ r.2.2.1.branch_id = r.1.branch_id ∧
      r.2.2.2 ∈ db.departments ∧ r.2.2.2.department_id = r.1.department_id := by
  simp only [longStayRows, List.mem_filter, List.mem_flatMap, List.mem_map,
    List.mem_filter] at h
  obtain ⟨⟨e, he, b, ⟨hbmem, hbid⟩, dp, ⟨hdmem, hdid⟩, rfl⟩, -⟩ := h
  simp only [decide_eq_true_eq] at hbid hdid
  exact ⟨hbmem, hbid, hdmem, hdid⟩

theorem delayed_filter_eq (db : Db) (bf : Option (List Nat)) (d1 d2 : Date)
    (hb : (db.hospital_branches.map fun b => b.branch_id).Nodup)
    (hd : (db.departments.map fun dp => dp.department_id).Nodup)
    {bid did : Nat} {nm dn : String}
    {r0 : Admission × Discharge × Branch × Department}
    (hr0 : r0 ∈ longStayRows db bf d1 d2)
    (hk : (r0.1.branch_id, r0.2.2.1.name, r0.1.department_id, r0.2.2.2.name) =
      (bid, nm, did, dn)) :
    ((longStayRows db bf d1 d2).filter fun r =>
      decide ((r.1.branch_id, r.2.2.1.name, r.1.department_id, r.2.2.2.name) =
        (bid, nm, did, dn))) = delayedGroupRows db bf d1 d2 bid did := by
  unfold delayedGroupRows
  refine List.filter_congr fun r hr => ?_
  obtain ⟨hbmem, hbid, hdmem, hdid⟩ := mem_longStayRows hr
  obtain ⟨hbmem0, hbid0, hdmem0, hdid0⟩ := mem_longStayRows hr0
  simp only [Prod.mk.injEq] at hk
  obtain ⟨hk1, hk2, hk3, hk4⟩ := hk
  by_cases h1 : r.1.branch_id = bid
  · by_cases h2 : r.1.department_id = did
    · have hbeq : r.2.2.1 = r0.2.2.1 :=
        nodup_key_unique (fun b => b.branch_id) hb hbmem hbmem0
          (by show r.2.2.1.branch_id = r0.2.2.1.branch_id; rw [hbid, hbid0, h1, hk1])
      have hdeq : r.2.2.2 = r0.2.2.2 :=
        nodup_key_unique (fun dp => dp.department_id) hd hdmem hdmem0
          (by show r.2.2.2.department_id = r0.2.2.2.department_id; rw [hdid, hdid0, h2, hk3])
      simp [h1, h2, hbeq, hdeq, hk2, hk4]
    · simp [h1, h2]
  · simp [h1]

theorem delayedFlags_shape (db : Db) (bf : Option (List Nat)) (d1 d2 : Date)
    {fl : BottleneckFlag} (h : fl ∈ delayedFlags db bf d1 d2) :
    ∃ g ∈ (delayedGroups db bf d1 d2).filter fun g => decide (5 ≤ g.2.length),
      fl = { flag_type := "delayed_discharge"
             branch_id := some g.1.1
             branch_name := some g.1.2.1
             department_id := some g.1.2.2.1
             department_name := some g.1.2.2.2
             count := some g.2.length
             avg_los_days := some (pyRound2 ((avgOpt (g.2.map fun r =>
               losDays (r.1, r.2.1))).getD 0))
             hour := Option.none
             admissions_count := Option.none } := by
  simp only [delayedFlags, List.mem_map] at h
  obtain ⟨g, hg, rfl⟩ := h
  exact ⟨g, ((List.perm_insertionSort _ _).mem_iff).mp hg, rfl⟩

theorem delayedFlags_mem_elim (db : Db) (bf : Option (List Nat)) (d1 d2 : Date)
    (hb : (db.hospital_branches.map fun b => b.branch_id).Nodup)
    (hd : (db.departments.map fun dp => dp.department_id).Nodup)
    {fl : BottleneckFlag} (hfl : fl ∈ delayedFlags db bf d1 d2)
    {bid did : Nat} (hbid : fl.branch_id = some bid)
    (hdid : fl.department_id = some did) :
    5 ≤ (delayedGroupRows db bf d1 d2 bid did).length ∧
      fl.count = some (delayedGroupRows db bf d1 d2 bid did).length ∧
      fl.avg_los_days = some (pyRound2 ((avgOpt
        ((delayedGroupRows db bf d1 d2 bid did).map fun r =>
          losDays (r.1, r.2.1))).getD 0)) := by
  obtain ⟨⟨⟨kb, knm, kd, kdn⟩, grows⟩, hg, rfl⟩ := delayedFlags_shape db bf d1 d2 hfl
  simp only [Option.some.injEq] at hbid hdid
  subst hbid
  subst hdid
  rw [List.mem_filter] at hg
  obtain ⟨hgrp, hcond⟩ := hg
  rw [decide_eq_true_eq] at hcond
  obtain ⟨⟨r0, hr0, hk0⟩, hgeq⟩ := mem_groupByKey_of_mem _ _ hgrp
  have hfe := delayed_filter_eq db bf d1 d2 hb hd hr0 hk0
  rw [hfe] at hgeq
  subst hgeq
  exact ⟨hcond, rfl, rfl⟩

theorem delayedFlags_intro (db : Db) (bf : Option (List Nat)) (d1 d2 : Date)
    (hb : (db.hospital_branches.map fun b => b.branch_id).Nodup)
    (hd : (db.departments.map fun dp => dp.department_id).Nodup)
    {bid did : Nat}
    (h5 : 5 ≤ (delayedGroupRows db bf d1 d2 bid did).length) :
    ∃ fl ∈ delayedFlags db bf d1 d2,
      fl.flag_type = "delayed_discharge" ∧ fl.branch_id = some bid ∧
        fl.department_id = some did := by
  have hne : delayedGroupRows db bf d1 d2 bid did ≠ [] := by
    intro hnil
    rw [hnil] at h5
    simp at h5
  obtain ⟨r0, hr0⟩ := List.exists_mem_of_ne_nil _ hne
  rw [delayedGroupRows, List.mem_filter] at hr0
  obtain ⟨hr0mem, hr0ids⟩ := hr0
  rw [Bool.and_eq_true, decide_eq_true_eq, decide_eq_true_eq] at hr0ids
  obtain ⟨hrb, hrd⟩ := hr0ids
  have hk0 : (r0.1.branch_id, r0.2.2.1.name, r0.1.department_id, r0.2.2.2.name) =
      (bid, r0.2.2.1.name, did, r0.2.2.2.name) := by rw [hrb, hrd]
  have hgrp : ((bid, r0.2.2.1.name, did, r0.2.2.2.name),
      (longStayRows db bf d1 d2).filter fun r =>
        decide ((r.1.branch_id, r.2.2.1.name, r.1.department_id, r.2.2.2.name) =
          (bid, r0.2.2.1.name, did, r0.2.2.2.name))) ∈
      delayedGroups db bf d1 d2 :=
    (mem_groupByKey _ _ _ _).mpr ⟨⟨r0, hr0mem, hk0⟩, rfl⟩
  have hfe := delayed_filter_eq db bf d1 d2 hb hd hr0mem hk0
  have hcond : decide (5 ≤ ((longStayRows db bf d1 d2).filter fun r =>
      decide ((r.1.branch_id, r.2.2.1.name, r.1.department_id, r.2.2.2.name) =
        (bid, r0.2.2.1.name, did, r0.2.2.2.name))).length) = true := by
    rw [decide_eq_true_eq, hfe]
    exact h5
  have hmemf : ((bid, r0.2.2.1.name, did, r0.2.2.2.name),
      (longStayRows db bf d1 d2).filter fun r =>
        decide ((r.1.branch_id, r.2.2.1.name, r.1.department_id, r.2.2.2.name) =
          (bid, r0.2.2.1.name, did, r0.2.2.2.name))) ∈
      (delayedGroups db bf d1 d2).filter fun g => decide (5 ≤ g.2.length) :=
    List.mem_filter.mpr ⟨hgrp, hcond⟩
  refine ⟨_, List.mem_map.mpr
    ⟨_, ((List.perm_insertionSort _ _).mem_iff).mpr hmemf, rfl⟩, rfl, rfl, rfl⟩

/-- C6: the bottleneck detector emits a delayed-discharge flag for the
(branch, department) pair exactly when that pair has at least 5 closed
long-stay episodes (length of stay strictly above 14 days) in the
resolved date range, regardless of the pair's total episode count, and
the flag carries the long-stay count and the rounded mean length of
stay of the long-stay subset.  The hypotheses are the key constraints
of the joined dimension tables: branch ids and department ids are
unique. -/
theorem delayed_discharge_flag_iff (db : Db) (bf : Option (List Nat))
    (dfo dto : Option Date) (today : Date)
    (hb : (db.hospital_branches.map fun b => b.branch_id).Nodup)
    (hd : (db.departments.map fun dp => dp.department_id).Nodup)
    (bid did : Nat) :
    ((∃ fl ∈ get_bottlenecks db bf dfo dto today,
        fl.flag_type = "delayed_discharge" ∧ fl.branch_id = some bid ∧
          fl.department_id = some did) ↔
      5 ≤ (delayedGroupRows db bf (dfo.getD (today.subDays 30))
        (dto.getD today) bid did).length) ∧
    ∀ fl ∈ get_bottlenecks db bf dfo dto today,
      fl.flag_type = "delayed_discharge" → fl.branch_id = some bid →
        fl.department_id = some did →
        fl.count = some (delayedGroupRows db bf (dfo.getD (today.subDays 30))
          (dto.getD today) bid did).length ∧
          fl.avg_los_days = some (pyRound2 ((avgOpt
            ((delayedGroupRows db bf (dfo.getD (today.subDays 30))
              (dto.getD today) bid did).map fun r =>
                losDays (r.1, r.2.1))).getD 0)) := by
  set d1 := dfo.getD (today.subDays 30) with hd1
  set d2 := dto.getD today with hd2
  have hsplit : get_bottlenecks db bf dfo dto today =
      delayedFlags db bf d1 d2 ++ peakFlags db bf d1 d2 := rfl
  rw [hsplit]
  constructor
  · constructor
    · rintro ⟨fl, hmem, htype, hbid, hdid⟩
      rcases List.mem_append.mp hmem with hL | hR
      · exact (delayedFlags_mem_elim db bf d1 d2 hb hd hL hbid hdid).1
      · rw [(peakFlags_shape db bf d1 d2 hR).1] at htype
        exact absurd htype (by decide)
    · intro h5
      obtain ⟨fl, hfl, hprops⟩ := delayedFlags_intro db bf d1 d2 hb hd h5
      exact ⟨fl, List.mem_append.mpr (Or.inl hfl), hprops⟩
  · rintro fl hmem htype hbid hdid
    rcases List.mem_append.mp hmem with hL | hR
    · exact (delayedFlags_mem_elim db bf d1 d2 hb hd hL hbid hdid).2
    · rw [(peakFlags_shape db bf d1 d2 hR).1] at htype
      exact absurd htype (by decide)

theorem delayed_discharge_flag_iff_witness :
    ((∃ fl ∈ get_bottlenecks dbLS none none none ⟨2024, 1, 31⟩,
        fl.flag_type = "delayed_discharge" ∧ fl.branch_id = some 1 ∧
          fl.department_id = some 7) ↔
      5 ≤ (delayedGroupRows dbLS none ((none : Option Date).getD
        (Date.subDays ⟨2024, 1, 31⟩ 30))
        ((none : Option Date).getD ⟨2024, 1, 31⟩) 1 7).length) ∧
    ∀ fl ∈ get_bottlenecks dbLS none none none ⟨2024, 1, 31⟩,
      fl.flag_type = "delayed_discharge" → fl.branch_id = some 1 →
        fl.department_id = some 7 →
        fl.count = some (delayedGroupRows dbLS none ((none : Option Date).getD
          (Date.subDays ⟨2024, 1, 31⟩ 30))
          ((none : Option Date).getD ⟨2024, 1, 31⟩) 1 7).length ∧
          fl.avg_los_days = some (pyRound2 ((avgOpt
            ((delayedGroupRows dbLS none ((none : Option Date).getD
              (Date.subDays ⟨2024, 1, 31⟩ 30))
              ((none : Option Date).getD ⟨2024, 1, 31⟩) 1 7).map
                fun r => losDays (r.1, r.2.1))).getD 0)) :=
  delayed_discharge_flag_iff dbLS none none none ⟨2024, 1, 31⟩
    (by decide) (by decide) 1 7

theorem countP_filterMap {α β : Type} (f : α → Option β) (p : β → Bool)
    (l : List α) :
    (l.filterMap f).countP p =
      l.countP fun a => ((f a).map p).getD false := by
  induction l with
  | nil => rfl
  | cons a l ih =>
    cases hfa : f a with
    | none => simp [List.filterMap_cons, hfa, List.countP_cons, ih]
    | some b =>
      by_cases hp : p b = true
      · simp [List.filterMap_cons, hfa, List.countP_cons, ih, hp]
      · simp only [Bool.not_eq_true] at hp
        simp [List.filterMap_cons, hfa, List.countP_cons, ih, hp]

theorem countP_eq_one_of_unique_key {κ α : Type} (L : List (κ × α))
    (hnd : (L.map Prod.fst).Nodup) (q : κ × α → Bool) (k0 : κ)
    (hq : ∀ g ∈ L, q g = true → g.1 = k0) {g0 : κ × α} (hg0 : g0 ∈ L)
    (hq0 : q g0 = true) : L.countP q = 1 := by
  induction L with
  | nil => cases hg0
  | cons h t ih =>
    rw [List.map_cons, List.nodup_cons] at hnd
    obtain ⟨hnotin, hndt⟩ := hnd
    by_cases hqh : q h = true
    · have hk : h.1 = k0 := hq h (List.mem_cons_self h t) hqh
      have hzero : t.countP q = 0 := by
        rw [List.countP_eq_zero]
        intro g hg hqg
        have : g.1 = k0 := hq g (List.mem_cons_of_mem h hg) hqg
        refine hnotin ?_
        have hmem := List.mem_map_of_mem Prod.fst hg
        rw [this, ← hk] at hmem
        exact hmem
      rw [List.countP_cons, hzero, hqh]
      rfl
    · have hg0t : g0 ∈ t := by
        rcases List.mem_cons.mp hg0 with rfl | ht
        · exact absurd hq0 hqh
        · exact ht
      have := ih hndt (fun g hg => hq g (List.mem_cons_of_mem h hg)) hg0t
      rw [List.countP_cons, this]
      simp [hqh]

theorem mem_raJoined {db : Db} {rb : ResourceRow × Branch}
    (h : rb ∈ raJoined db) :
    rb.2 ∈ db.hospital_branches ∧ rb.2.branch_id = rb.1.branch_id := by
  simp only [raJoined, List.mem_flatMap, List.mem_map, List.mem_filter] at h
  obtain ⟨ra, hra, b, ⟨hbmem, hbid⟩, rfl⟩ := h
  simp only [decide_eq_true_eq] at hbid
  exact ⟨hbmem, hbid⟩

theorem icuAlerts_type (db : Db) (bf : Option (List Nat)) (icuT : ℚ)
    (d1 d2 : Date) {al : Alert} (h : al ∈ icuAlerts db bf icuT d1 d2) :
    al.alert_type = "high_icu_utilization" := by
  simp only [icuAlerts, List.mem_map] at h
  obtain ⟨kv, _, rfl⟩ := h
  rfl

theorem docAlerts_type (db : Db) (bf : Option (List Nat)) (docT : ℚ)
    (d1 d2 : Date) {al : Alert} (h : al ∈ docAlerts db bf docT d1 d2) :
    al.alert_type = "doctor_overutilization" := by
  simp only [docAlerts, List.mem_map] at h
  obtain ⟨kv, _, rfl⟩ := h
  rfl

theorem bedAlerts_shape (db : Db) (bf : Option (List Nat)) (bedT : ℚ)
    (d1 d2 : Date) {al : Alert} (h : al ∈ bedAlerts db bf bedT d1 d2) :
    al.alert_type = "high_bed_occupancy" ∧ al.severity = "warning" := by
  simp only [bedAlerts, List.mem_map] at h
  obtain ⟨kv, _, rfl⟩ := h
  exact ⟨rfl, rfl⟩

theorem bed_filter_eq (db : Db) (bf : Option (List Nat)) (d1 d2 : Date)
    (hb : (db.hospital_branches.map fun b => b.branch_id).Nodup)
    {bid : Nat} {dt : Date} {r0 : ResourceRow × Branch}
    (hr0 : r0 ∈ raJoined db) (hr0b : r0.1.branch_id = bid) :
    (((raJoined db).filter fun rb =>
        decide (Date.le d1 rb.1.record_date) &&
          decide (Date.le rb.1.record_date d2) &&
          inOptList bf rb.1.branch_id).filter fun rb =>
      decide ((rb.1.branch_id, rb.2.name, rb.1.record_date) =
        (bid, r0.2.name, dt))) = bedGroupRows db bf d1 d2 bid dt := by
  rw [List.filter_filter]
  unfold bedGroupRows
  refine List.filter_congr fun rb hrb => ?_
  obtain ⟨hbm, hbid⟩ := mem_raJoined hrb
  obtain ⟨hbm0, hbid0⟩ := mem_raJoined hr0
  by_cases h1 : rb.1.branch_id = bid
  · have hbeq : rb.2 = r0.2 :=
      nodup_key_unique (fun b => b.branch_id) hb hbm hbm0
        (by show rb.2.branch_id = r0.2.branch_id; rw [hbid, hbid0, h1, hr0b])
    by_cases h2 : rb.1.record_date = dt
    · simp [Prod.mk.injEq, h1, h2, hbeq]
    · simp [Prod.mk.injEq, h1, h2, hbeq]
  · simp [Prod.mk.injEq, h1]

/-- C7: among the threshold alerts, there is exactly one bed-occupancy
alert for a (branch, date) pair whose mean bed occupancy percentage v
passes the inclusive comparison bedT ≤ v, and none when v is strictly
below bedT; every bed-occupancy alert has severity "warning".  The
hypothesis is the key constraint that branch ids are unique, and the
mean is the one the query computes (capacity-zero branches dropped as
NULL). -/
theorem bed_occupancy_alert_iff (db : Db) (bf : Option (List Nat))
    (bedT icuT docT : ℚ) (dfo dto : Option Date) (today : Date)
    (hb : (db.hospital_branches.map fun b => b.branch_id).Nodup)
    (bid : Nat) (dt : Date) (v : ℚ)
    (hv : bedOccOfGroup (bedGroupRows db bf
      (dfo.getD ((dto.getD today).subDays 7)) (dto.getD today) bid dt) = some v) :
    (bedT ≤ v →
      (get_threshold_alerts db bf bedT icuT docT dfo dto today).countP
        (fun al => decide (al.alert_type = "high_bed_occupancy") &&
          decide (al.branch_id = bid) && decide (al.record_date = some dt)) = 1) ∧
    (v < bedT →
      (get_threshold_alerts db bf bedT icuT docT dfo dto today).countP
        (fun al => decide (al.alert_type = "high_bed_occupancy") &&
          decide (al.branch_id = bid) && decide (al.record_date = some dt)) = 0) ∧
    (∀ al ∈ get_threshold_alerts db bf bedT icuT docT dfo dto today,
      al.alert_type = "high_bed_occupancy" → al.severity = "warning") := by
  set d2 := dto.getD today with hd2def
  set d1 := dfo.getD (d2.subDays 7) with hd1def
  set p : Alert → Bool := fun al =>
    decide (al.alert_type = "high_bed_occupancy") &&
      decide (al.branch_id = bid) && decide (al.record_date = some dt) with hpdef
  have hsplit : get_threshold_alerts db bf bedT icuT docT dfo dto today =
      bedAlerts db bf bedT d1 d2 ++ icuAlerts db bf icuT d1 d2 ++
        docAlerts db bf docT d1 d2 := rfl
  have hicu : (icuAlerts db bf icuT d1 d2).countP p = 0 := by
    rw [List.countP_eq_zero]
    intro al hal
    have := icuAlerts_type db bf icuT d1 d2 hal
    simp [hpdef, this]
  have hdoc : (docAlerts db bf docT d1 d2).countP p = 0 := by
    rw [List.countP_eq_zero]
    intro al hal
    have := docAlerts_type db bf docT d1 d2 hal
    simp [hpdef, this]
  have hne : bedGroupRows db bf d1 d2 bid dt ≠ [] := by
    intro hnil
    rw [hnil] at hv
    simp [bedOccOfGroup, avgOpt] at hv
  obtain ⟨r0, hr0⟩ := List.exists_mem_of_ne_nil _ hne
  rw [bedGroupRows, List.mem_filter] at hr0
  obtain ⟨hr0j, hr0conds⟩ := hr0
  simp only [Bool.and_eq_true, decide_eq_true_eq] at hr0conds
  obtain ⟨⟨⟨⟨hc1, hc2⟩, hc3⟩, hcb⟩, hcd⟩ := hr0conds
  have hr0base : r0 ∈ (raJoined db).filter fun rb =>
      decide (Date.le d1 rb.1.record_date) &&
        decide (Date.le rb.1.record_date d2) &&
        inOptList bf rb.1.branch_id := by
    rw [List.mem_filter]
    refine ⟨hr0j, ?_⟩
    simp [hc1, hc2, hc3]
  have hkey0 : (r0.1.branch_id, r0.2.name, r0.1.record_date) =
      (bid, r0.2.name, dt) := by rw [hcb, hcd]
  have hfe := @bed_filter_eq db bf d1 d2 hb bid dt r0 hr0j hcb
  set canRows := ((raJoined db).filter fun rb =>
      decide (Date.le d1 rb.1.record_date) &&
        decide (Date.le rb.1.record_date d2) &&
        inOptList bf rb.1.branch_id).filter (fun rb =>
      decide ((rb.1.branch_id, rb.2.name, rb.1.record_date) =
        (bid, r0.2.name, dt))) with hcandef
  have hgrp0 : ((bid, r0.2.name, dt), canRows) ∈ bedGroups db bf d1 d2 :=
    (mem_groupByKey _ _ _ _).mpr ⟨⟨r0, hr0base, hkey0⟩, hcandef⟩
  set sel : ((Nat × String × Date) × List (ResourceRow × Branch)) →
      Option ((Nat × String × Date) × ℚ) := fun g =>
    match bedOccOfGroup g.2 with
    | none => none
    | some w => if bedT ≤ w then some (g.1, w) else none with hseldef
  have hbedsel : bedAlerts db bf bedT d1 d2 =
      (List.insertionSort geBySnd
        ((bedGroups db bf d1 d2).filterMap sel)).map fun kv =>
      { alert_type := "high_bed_occupancy"
        severity := "warning"
        branch_id := kv.1.1
        branch_name := kv.1.2.1
        record_date := some kv.1.2.2
        value_pct := kv.2
        threshold_pct := bedT } := rfl
  have hcount : (bedAlerts db bf bedT d1 d2).countP p =
      (bedGroups db bf d1 d2).countP fun g =>
        ((sel g).map fun kv =>
          decide (kv.1.1 = bid) && decide (kv.1.2.2 = dt)).getD false := by
    rw [hbedsel, List.countP_map,
      ((List.perm_insertionSort geBySnd _).countP_eq _), countP_filterMap]
    refine List.countP_congr fun g hg => ?_
    cases hsg : sel g with
    | none => simp [hsg]
    | some kv => simp [hsg, hpdef, Function.comp]
  have hocc0 : bedOccOfGroup canRows = some v := by
    rw [hfe]
    exact hv
  have hqkey : ∀ g ∈ bedGroups db bf d1 d2,
      (((sel g).map fun kv =>
        decide (kv.1.1 = bid) && decide (kv.1.2.2 = dt)).getD false) = true →
      g.1 = (bid, r0.2.name, dt) := by
    intro g hg hQ
    cases hsg : sel g with
    | none => rw [hsg] at hQ; simp at hQ
    | some kv =>
      rw [hsg] at hQ
      simp only [Option.map_some', Option.getD_some, Bool.and_eq_true,
        decide_eq_true_eq] at hQ
      have hkv : kv.1 = g.1 := by
        simp only [hseldef] at hsg
        cases hocc : bedOccOfGroup g.2 with
        | none =>
          simp only [hocc] at hsg
          exact Option.noConfusion hsg
        | some w =>
          simp only [hocc] at hsg
          by_cases hT : bedT ≤ w
          · rw [if_pos hT] at hsg
            cases hsg
            rfl
          · rw [if_neg hT] at hsg
            cases hsg
      obtain ⟨hgb, hgd⟩ := hQ
      rw [hkv] at hgb hgd
      obtain ⟨⟨r1, hr1, hkey1⟩, -⟩ := mem_groupByKey_of_mem _ _ hg
      rw [List.mem_filter] at hr1
      obtain ⟨hr1j, -⟩ := hr1
      obtain ⟨hbm1, hbid1⟩ := mem_raJoined hr1j
      obtain ⟨hbm0, hbid0⟩ := mem_raJoined hr0j
      have hr1b : r1.1.branch_id = bid := by
        have hx : g.1.1 = bid := hgb
        rw [← hkey1] at hx
        exact hx
      have hbeq : r1.2 = r0.2 :=
        nodup_key_unique (fun b => b.branch_id) hb hbm1 hbm0
          (by show r1.2.branch_id = r0.2.branch_id
              rw [hbid1, hbid0, hr1b, hcb])
      have hgk : g.1 = (r1.1.branch_id, r1.2.name, r1.1.record_date) := hkey1.symm
      have hr1d : r1.1.record_date = dt := by
        have hx : g.1.2.2 = dt := hgd
        rw [← hkey1] at hx
        exact hx
      rw [hgk, hr1b, hbeq, hr1d]
  refine ⟨?_, ?_, ?_⟩
  · intro hT
    rw [hsplit, List.countP_append, List.countP_append, hicu, hdoc, hcount]
    have hsel0 : sel ((bid, r0.2.name, dt), canRows) =
        some ((bid, r0.2.name, dt), v) := by
      simp only [hseldef, hocc0]
      rw [if_pos hT]
    have hQ0 : (((sel ((bid, r0.2.name, dt), canRows)).map fun kv =>
        decide (kv.1.1 = bid) && decide (kv.1.2.2 = dt)).getD false) = true := by
      rw [hsel0]
      simp
    have hone := countP_eq_one_of_unique_key (bedGroups db bf d1 d2)
      (show ((bedGroups db bf d1 d2).map Prod.fst).Nodup from
        groupByKey_keys_nodup _ _) _
      (bid, r0.2.name, dt) hqkey hgrp0 hQ0
    omega
  · intro hT
    rw [hsplit, List.countP_append, List.countP_append, hicu, hdoc, hcount]
    have hzero : ((bedGroups db bf d1 d2).countP fun g =>
        ((sel g).map fun kv =>
          decide (kv.1.1 = bid) && decide (kv.1.2.2 = dt)).getD false) = 0 := by
      rw [List.countP_eq_zero]
      intro g hg hQ
      have hk := hqkey g hg hQ
      obtain ⟨-, hgeq⟩ := mem_groupByKey_of_mem _ _ hg
      have hgrows : g.2 = canRows := by
        rw [hgeq, hk, hcandef]
      have hsgnone : sel g = none := by
        simp only [hseldef]
        rw [hgrows]
        simp only [hocc0]
        rw [if_neg (not_le.mpr hT)]
      rw [hsgnone] at hQ
      simp at hQ
    omega
  · intro al hal htype
    rw [hsplit] at hal
    rcases List.mem_append.mp hal with h1 | h2
    · rcases List.mem_append.mp h1 with h3 | h4
      · exact (bedAlerts_shape db bf bedT d1 d2 h3).2
      · rw [icuAlerts_type db bf icuT d1 d2 h4] at htype
        exact absurd htype (by decide)
    · rw [docAlerts_type db bf docT d1 d2 h2] at htype
      exact absurd htype (by decide)

theorem bed_occupancy_alert_iff_witness :
    ((85 : ℚ) ≤ 90 →
      (get_threshold_alerts dbRes none 85 90 95 none none ⟨2024, 1, 14⟩).countP
        (fun al => decide (al.alert_type = "high_bed_occupancy") &&
          decide (al.branch_id = 1) &&
          decide (al.record_date = some ⟨2024, 1, 10⟩)) = 1) ∧
    ((90 : ℚ) < 85 →
      (get_threshold_alerts dbRes none 85 90 95 none none ⟨2024, 1, 14⟩).countP
        (fun al => decide (al.alert_type = "high_bed_occupancy") &&
          decide (al.branch_id = 1) &&
          decide (al.record_date = some ⟨2024, 1, 10⟩)) = 0) ∧
    (∀ al ∈ get_threshold_alerts dbRes none 85 90 95 none none ⟨2024, 1, 14⟩,
      al.alert_type = "high_bed_occupancy" → al.severity = "warning") :=
  bed_occupancy_alert_iff dbRes none 85 90 95 none none ⟨2024, 1, 14⟩
    (by decide) 1 ⟨2024, 1, 10⟩ 90 (by
      have h1 : bedGroupRows dbRes none
          ((none : Option Date).getD
            (((none : Option Date).getD ⟨2024, 1, 14⟩).subDays 7))
          ((none : Option Date).getD ⟨2024, 1, 14⟩) 1 ⟨2024, 1, 10⟩ =
          [(⟨1, ⟨2024, 1, 10⟩, 9, 1⟩, ⟨1, "B1", 10, 2⟩)] := by decide
      rw [h1]
      norm_num [bedOccOfGroup, avgOpt, List.filterMap_cons, List.filterMap_nil,
        List.sum_cons, List.sum_nil])

theorem digitChar_inj : ∀ a < 10, ∀ b < 10,
    Nat.digitChar a = Nat.digitChar b → a = b := by decide

theorem pad4_inj {a b : Nat} (ha : a ≤ 9999) (hb : b ≤ 9999)
    (h : pad4 a = pad4 b) : a = b := by
  simp only [pad4, List.cons.injEq, and_true] at h
  obtain ⟨h1, h2, h3, h4⟩ := h
  have e1 := digitChar_inj _ (Nat.mod_lt _ (by norm_num)) _
    (Nat.mod_lt _ (by norm_num)) h1
  have e2 := digitChar_inj _ (Nat.mod_lt _ (by norm_num)) _
    (Nat.mod_lt _ (by norm_num)) h2
  have e3 := digitChar_inj _ (Nat.mod_lt _ (by norm_num)) _
    (Nat.mod_lt _ (by norm_num)) h3
  have e4 := digitChar_inj _ (Nat.mod_lt _ (by norm_num)) _
    (Nat.mod_lt _ (by norm_num)) h4
  omega

theorem pad2_inj {a b : Nat} (ha : a ≤ 99) (hb : b ≤ 99)
    (h : pad2 a = pad2 b) : a = b := by
  simp only [pad2, List.cons.injEq, and_true] at h
  obtain ⟨h1, h2⟩ := h
  have e1 := digitChar_inj _ (Nat.mod_lt _ (by norm_num)) _
    (Nat.mod_lt _ (by norm_num)) h1
  have e2 := digitChar_inj _ (Nat.mod_lt _ (by norm_num)) _
    (Nat.mod_lt _ (by norm_num)) h2
  omega


theorem stringMk_inj_iff {l1 l2 : List Char} :
    String.mk l1 = String.mk l2 ↔ l1 = l2 :=
  ⟨fun h => by injection h, fun h => h ▸ rfl⟩

theorem fmtYMD_inj {a b : Date} (ha : a.Wf) (hb : b.Wf)
    (h : fmtYMD a = fmtYMD b) : a = b := by
  rcases a with ⟨ay, am, ad⟩
  rcases b with ⟨by_, bm, bd⟩
  dsimp only [Date.Wf] at ha hb
  obtain ⟨ham1, ham2, had1, had2, hay⟩ := ha
  obtain ⟨hbm1, hbm2, hbd1, hbd2, hby⟩ := hb
  dsimp only [fmtYMD, pad4, pad2] at h
  simp only [stringMk_inj_iff, List.cons_append, List.nil_append,
    List.cons.injEq, and_true] at h
  obtain ⟨h1, h2, h3, h4, -, h5, h6, -, h7, h8⟩ := h
  have e1 := digitChar_inj _ (Nat.mod_lt _ (by norm_num)) _
    (Nat.mod_lt _ (by norm_num)) h1
  have e2 := digitChar_inj _ (Nat.mod_lt _ (by norm_num)) _
    (Nat.mod_lt _ (by norm_num)) h2
  have e3 := digitChar_inj _ (Nat.mod_lt _ (by norm_num)) _
    (Nat.mod_lt _ (by norm_num)) h3
  have e4 := digitChar_inj _ (Nat.mod_lt _ (by norm_num)) _
    (Nat.mod_lt _ (by norm_num)) h4
  have e5 := digitChar_inj _ (Nat.mod_lt _ (by norm_num)) _
    (Nat.mod_lt _ (by norm_num)) h5
  have e6 := digitChar_inj _ (Nat.mod_lt _ (by norm_num)) _
    (Nat.mod_lt _ (by norm_num)) h6
  have e7 := digitChar_inj _ (Nat.mod_lt _ (by norm_num)) _
    (Nat.mod_lt _ (by norm_num)) h7
  have e8 := digitChar_inj _ (Nat.mod_lt _ (by norm_num)) _
    (Nat.mod_lt _ (by norm_num)) h8
  simp only [Date.mk.injEq]
  omega

theorem fmtYM_inj {a b : Date} (hay : a.y ≤ 9999) (ham : a.m ≤ 99)
    (hby : b.y ≤ 9999) (hbm : b.m ≤ 99)
    (h : fmtYM a = fmtYM b) : a.y = b.y ∧ a.m = b.m := by
  rcases a with ⟨ay, am, ad⟩
  rcases b with ⟨by_, bm, bd⟩
  dsimp only at hay ham hby hbm ⊢
  dsimp only [fmtYM, pad4, pad2] at h
  simp only [stringMk_inj_iff, List.cons_append, List.nil_append,
    List.cons.injEq, and_true] at h
  obtain ⟨h1, h2, h3, h4, -, h5, h6⟩ := h
  have e1 := digitChar_inj _ (Nat.mod_lt _ (by norm_num)) _
    (Nat.mod_lt _ (by norm_num)) h1
  have e2 := digitChar_inj _ (Nat.mod_lt _ (by norm_num)) _
    (Nat.mod_lt _ (by norm_num)) h2
  have e3 := digitChar_inj _ (Nat.mod_lt _ (by norm_num)) _
    (Nat.mod_lt _ (by norm_num)) h3
  have e4 := digitChar_inj _ (Nat.mod_lt _ (by norm_num)) _
    (Nat.mod_lt _ (by norm_num)) h4
  have e5 := digitChar_inj _ (Nat.mod_lt _ (by norm_num)) _
    (Nat.mod_lt _ (by norm_num)) h5
  have e6 := digitChar_inj _ (Nat.mod_lt _ (by norm_num)) _
    (Nat.mod_lt _ (by norm_num)) h6
  omega

theorem fmtYQ_inj {a b : Date} (hay : a.y ≤ 9999) (hby : b.y ≤ 9999)
    (haq : (a.m - 1) / 3 + 1 < 10) (hbq : (b.m - 1) / 3 + 1 < 10)
    (h : fmtYQ a = fmtYQ b) : a.y = b.y ∧ (a.m - 1) / 3 = (b.m - 1) / 3 := by
  rcases a with ⟨ay, am, ad⟩
  rcases b with ⟨by_, bm, bd⟩
  dsimp only at hay hby haq hbq ⊢
  dsimp only [fmtYQ, pad4] at h
  simp only [stringMk_inj_iff, List.cons_append, List.nil_append,
    List.cons.injEq, and_true] at h
  obtain ⟨h1, h2, h3, h4, -, h5⟩ := h
  have e1 := digitChar_inj _ (Nat.mod_lt _ (by norm_num)) _
    (Nat.mod_lt _ (by norm_num)) h1
  have e2 := digitChar_inj _ (Nat.mod_lt _ (by norm_num)) _
    (Nat.mod_lt _ (by norm_num)) h2
  have e3 := digitChar_inj _ (Nat.mod_lt _ (by norm_num)) _
    (Nat.mod_lt _ (by norm_num)) h3
  have e4 := digitChar_inj _ (Nat.mod_lt _ (by norm_num)) _
    (Nat.mod_lt _ (by norm_num)) h4
  have e5 := digitChar_inj _ haq _ hbq h5
  omega

theorem daysInMonth_bounds (y m : Nat) :
    1 ≤ daysInMonth y m ∧ daysInMonth y m ≤ 31 := by
  unfold daysInMonth
  split
  · split <;> omega
  · split <;> omega

theorem prevDay_wf {dt : Date} (h : dt.Wf) : dt.prevDay.Wf := by
  obtain ⟨hm1, hm2, hd1, hd2, hy⟩ := h
  have hb := daysInMonth_bounds dt.y (dt.m - 1)
  unfold Date.prevDay Date.Wf
  split
  · dsimp only
    omega
  · split
    · dsimp only
      omega
    · dsimp only
      omega

theorem subDays_wf {dt : Date} (h : dt.Wf) (n : Nat) : (dt.subDays n).Wf := by
  induction n with
  | zero => exact h
  | succ n ih => exact prevDay_wf ih

theorem weekStart_wf {dt : Date} (h : dt.Wf) : (weekStart dt).Wf :=
  subDays_wf h _

theorem periodLabel_inj (gran : String) {a b : Date}
    (ha : ∃ x, x.Wf ∧ periodTrunc gran x = a)
    (hb : ∃ x, x.Wf ∧ periodTrunc gran x = b)
    (h : periodLabel gran a = periodLabel gran b) : a = b := by
  obtain ⟨xa, hxa, hta⟩ := ha
  obtain ⟨xb, hxb, htb⟩ := hb
  by_cases g1 : gran = "daily"
  · subst hta htb
    simp only [periodTrunc, periodLabel, g1, if_true, if_pos] at h ⊢
    exact fmtYMD_inj hxa hxb h
  · by_cases g2 : gran = "weekly"
    · subst hta htb
      simp [periodTrunc, periodLabel, g1, g2] at h ⊢
      exact fmtYMD_inj (weekStart_wf hxa) (weekStart_wf hxb) h
    · by_cases g3 : gran = "monthly"
      · subst hta htb
        simp [periodTrunc, periodLabel, g1, g2, g3] at h ⊢
        have hin := @fmtYM_inj ⟨xa.y, xa.m, 1⟩ ⟨xb.y, xb.m, 1⟩
          hxa.2.2.2.2 (show xa.m ≤ 99 from by have := hxa.2.1; omega)
          hxb.2.2.2.2 (show xb.m ≤ 99 from by have := hxb.2.1; omega) h
        exact ⟨hin.1, hin.2⟩
      · subst hta htb
        simp [periodTrunc, periodLabel, g1, g2, g3] at h ⊢
        have hq1 : ((⟨xa.y, 3 * ((xa.m - 1) / 3) + 1, 1⟩ : Date).m - 1) / 3 + 1 < 10 := by
          have := hxa.2.1
          dsimp only
          omega
        have hq2 : ((⟨xb.y, 3 * ((xb.m - 1) / 3) + 1, 1⟩ : Date).m - 1) / 3 + 1 < 10 := by
          have := hxb.2.1
          dsimp only
          omega
        have hin := @fmtYQ_inj ⟨xa.y, 3 * ((xa.m - 1) / 3) + 1, 1⟩
          ⟨xb.y, 3 * ((xb.m - 1) / 3) + 1, 1⟩ hxa.2.2.2.2 hxb.2.2.2.2 hq1 hq2 h
        obtain ⟨hy, hm⟩ := hin
        dsimp only at hy hm
        have hma := hxa.2.1
        have hmb := hxb.2.1
        refine ⟨hy, ?_⟩
        omega

theorem date_lt_of_le_ne {a b : Date} (h1 : Date.le a b) (h2 : a ≠ b) :
    Date.lt a b := by
  rcases h1 with h | h
  · exact h
  · exact absurd h h2

theorem mem_closedEpisodes_adm {db : Db} {e : Admission × Discharge}
    (h : e ∈ closedEpisodes db) : e.1 ∈ db.admissions := by
  simp only [closedEpisodes, List.mem_flatMap, List.mem_map, List.mem_filter] at h
  obtain ⟨a, ha, d, hd, rfl⟩ := h
  exact ha

/-- C9: for every granularity string and cohort filter, the trend
series is strictly chronologically ordered by the truncated period
date, and no period label occurs twice.  The hypothesis is
well-formedness of the stored admission dates (real calendar month and
day, 4-digit year), under which the per-granularity label rendering is
injective on truncated dates. -/
theorem trends_strictly_ordered_and_labels_nodup (db : Db) (gran : String)
    (f : CohortFilter) (today : Date) (occFail : Bool)
    (hwf : ∀ a ∈ db.admissions, a.admission_at.day.Wf) :
    (get_trends db gran f today occFail).Pairwise
      (fun p q => Date.lt p.period_dt q.period_dt) ∧
    ((get_trends db gran f today occFail).map fun p => p.period).Nodup := by
  set key : (Admission × Discharge) → Date :=
    fun e => periodTrunc gran e.1.admission_at.day with hkey
  set L := List.insertionSort leByFst
    (groupByKey key (trendCohort db f today)) with hLdef
  have hform : get_trends db gran f today occFail =
      L.map (fun g => (⟨periodLabel gran g.1, g.1, g.2.length, g.2.length,
        pyRound2 ((avgOpt (g.2.map losDays)).getD 0),
        pyRound2 ((((if occFail then [] else trendOccPairs db gran f today).find?
          fun p => decide (p.1 = periodLabel gran g.1)).map
            fun p => p.2).getD 0)⟩ : TrendPoint)) := rfl
  have hperm : L.Perm (groupByKey key (trendCohort db f today)) :=
    List.perm_insertionSort _ _
  have hsort : L.Pairwise leByFst := List.sorted_insertionSort _ _
  have hknd : (L.map Prod.fst).Nodup :=
    ((hperm.map Prod.fst).nodup_iff).mpr (groupByKey_keys_nodup _ _)
  have hkne : L.Pairwise fun g1 g2 => g1.1 ≠ g2.1 := List.pairwise_map.mp hknd
  have hwfpre : ∀ g ∈ L, ∃ x, x.Wf ∧ periodTrunc gran x = g.1 := by
    intro g hg
    have hg2 := hperm.mem_iff.mp hg
    obtain ⟨⟨r, hr, hkr⟩, -⟩ := mem_groupByKey_of_mem _ _ hg2
    refine ⟨r.1.admission_at.day, ?_, hkr⟩
    have hrc : r ∈ closedEpisodes db := by
      have := List.mem_filter.mp hr
      exact this.1
    exact hwf r.1 (mem_closedEpisodes_adm hrc)
  have hpair : L.Pairwise fun g1 g2 => Date.lt g1.1 g2.1 :=
    (hsort.and hkne).imp fun h => date_lt_of_le_ne h.1 h.2
  constructor
  · rw [hform]
    exact List.pairwise_map.mpr (hpair.imp fun h => h)
  · rw [hform, List.map_map]
    have hlbl : L.Pairwise fun g1 g2 =>
        periodLabel gran g1.1 ≠ periodLabel gran g2.1 := by
      refine List.Pairwise.imp_of_mem ?_ hkne
      intro g1 g2 hm1 hm2 hne heq
      exact hne (periodLabel_inj gran (hwfpre g1 hm1) (hwfpre g2 hm2) heq)
    exact List.pairwise_map.mpr hlbl

/-- C10 (amended): every quarterly trend point's label is the fmtYQ
rendering of its quarter-start period date: the 4-digit year, a
hyphen, and the quarter number 1..4 as a single digit, with no literal
letter Q (PostgreSQL renders the format string YYYY-Q this way, since
Q is the quarter template pattern). -/
theorem quarterly_label_format (db : Db) (f : CohortFilter) (today : Date)
    (occFail : Bool)
    (hwf : ∀ a ∈ db.admissions,
      1 ≤ a.admission_at.day.m ∧ a.admission_at.day.m ≤ 12) :
    ∀ p ∈ get_trends db "quarterly" f today occFail,
      p.period = fmtYQ p.period_dt ∧
      ∃ q, 1 ≤ q ∧ q ≤ 4 ∧
        p.period = String.mk (pad4 p.period_dt.y ++ '-' :: [Nat.digitChar q]) := by
  intro p hp
  set key : (Admission × Discharge) → Date :=
    fun e => periodTrunc "quarterly" e.1.admission_at.day with hkey
  set L := List.insertionSort leByFst
    (groupByKey key (trendCohort db f today)) with hLdef
  have hform : get_trends db "quarterly" f today occFail =
      L.map (fun g => (⟨periodLabel "quarterly" g.1, g.1, g.2.length,
        g.2.length,
        pyRound2 ((avgOpt (g.2.map losDays)).getD 0),
        pyRound2 ((((if occFail then []
            else trendOccPairs db "quarterly" f today).find?
          fun pr => decide (pr.1 = periodLabel "quarterly" g.1)).map
            fun pr => pr.2).getD 0)⟩ : TrendPoint)) := rfl
  rw [hform] at hp
  obtain ⟨g, hg, rfl⟩ := List.mem_map.mp hp
  have hg2 := (List.perm_insertionSort leByFst _).mem_iff.mp hg
  obtain ⟨⟨r, hr, hkr⟩, -⟩ := mem_groupByKey_of_mem _ _ hg2
  have hrm : 1 ≤ r.1.admission_at.day.m ∧ r.1.admission_at.day.m ≤ 12 := by
    have hrc : r ∈ closedEpisodes db := (List.mem_filter.mp hr).1
    exact hwf r.1 (mem_closedEpisodes_adm hrc)
  have hgk : g.1 = ⟨r.1.admission_at.day.y,
      3 * ((r.1.admission_at.day.m - 1) / 3) + 1, 1⟩ := hkr.symm
  refine ⟨rfl, (g.1.m - 1) / 3 + 1, ?_, ?_, rfl⟩
  · omega
  · rw [hgk]
    dsimp only
    omega

theorem trends_strictly_ordered_and_labels_nodup_witness :
    (get_trends dbQ "quarterly" fNone ⟨2024, 3, 1⟩ false).Pairwise
      (fun p q => Date.lt p.period_dt q.period_dt) ∧
    ((get_trends dbQ "quarterly" fNone ⟨2024, 3, 1⟩ false).map
      fun p => p.period).Nodup :=
  trends_strictly_ordered_and_labels_nodup dbQ "quarterly" fNone
    ⟨2024, 3, 1⟩ false (by decide)

theorem quarterly_label_format_witness :
    ((⟨"2024-1", ⟨2024, 1, 1⟩, 1, 1, 5, 0⟩ : TrendPoint) ∈
        get_trends dbQ "quarterly" fNone ⟨2024, 3, 1⟩ false) ∧
      (("2024-1" : String) = fmtYQ ⟨2024, 1, 1⟩ ∧
        ∃ q, 1 ≤ q ∧ q ≤ 4 ∧
          ("2024-1" : String) =
            String.mk (pad4 2024 ++ '-' :: [Nat.digitChar q])) := by
  have h1 : List.insertionSort leByFst
      (groupByKey (fun e => periodTrunc "quarterly" e.1.admission_at.day)
        (trendCohort dbQ fNone ⟨2024, 3, 1⟩)) =
      [(⟨2024, 1, 1⟩,
        [(⟨1, 1, 1, "Scheduled", ⟨⟨2024, 2, 15⟩, 3600⟩⟩,
          ⟨1, ⟨⟨2024, 2, 20⟩, 3600⟩, "Recovered"⟩)])] := by decide
  have hocc : trendOccPairs dbQ "quarterly" fNone ⟨2024, 3, 1⟩ = [] := by decide
  have hper : periodLabel "quarterly" (⟨2024, 1, 1⟩ : Date) = "2024-1" := by
    decide
  have hmem : (⟨"2024-1", ⟨2024, 1, 1⟩, 1, 1, 5, 0⟩ : TrendPoint) ∈
      get_trends dbQ "quarterly" fNone ⟨2024, 3, 1⟩ false := by
    simp only [get_trends, h1, hocc, List.map_cons, List.map_nil,
      List.mem_singleton, hper]
    norm_num [TrendPoint.mk.injEq, losDays, Ts.secs, Date.toDays, avgOpt,
      pyRound2, rndHalfEven, pyRound2_zero]
  exact ⟨hmem, quarterly_label_format dbQ fNone ⟨2024, 3, 1⟩ false
    (by decide) _ hmem⟩
